import Mathlib

/-!
Verification development for the agentx repository (Python sources:
main.py, q_agent.py, orchestrator.py, cleanup_terraform.py).

The development is a shallow embedding: the Python functions named in the
claims are translated into executable Lean definitions over explicit
models of the pieces of ambient state they touch (an in-memory file
system with a current working directory, the session state of the
orchestrator, and oracle records supplying the outcomes of external
calls such as LLM requests and subprocesses).  General modelling
conventions, applied uniformly:

* Machine strings are Lean String values; the concrete regular
  expressions appearing in the sources are each hand-translated into a
  dedicated scanning function over character lists with Python
  re.search semantics (leftmost match, greedy quantifiers) for exactly
  the pattern in question.
* json.loads / json.dumps are modelled by an executable parser and
  printer over an inductive JSON value type.  JSON numbers are stored
  as integers (the integer part; every JSON value the sources consume
  or compare is an integer, a string, an array or an object).
* Fallible external calls (LLM requests, subprocesses) are modelled as
  Except-valued oracle fields; Python exceptions are values of PyErr
  and exception propagation is the Except monad.  File-system reads and
  writes inside the process are total, matching the sources, which
  never handle disk-level write failures on the paths relevant here.
-/

namespace AgentX

/-! ## Character and string utilities -/

/-- Lower-case a character list (Python str.lower for ASCII input). -/
def lowerChars (cs : List Char) : List Char := cs.map Char.toLower

/-- Python str.lower on a String. -/
def pyLower (s : String) : String := String.mk (lowerChars s.data)

/-- Whitespace test matching Python \s and str.strip for the inputs in scope. -/
def isWs (c : Char) : Bool := c = ' ' ∨ c = '\t' ∨ c = '\n' ∨ c = '\r' ∨ c = '\x0c' ∨ c = '\x0b'

/-- Strip leading whitespace. -/
def dropWsLeft (cs : List Char) : List Char := cs.dropWhile isWs

/-- Python str.strip on a character list. -/
def stripChars (cs : List Char) : List Char :=
  ((cs.dropWhile isWs).reverse.dropWhile isWs).reverse

/-- Python str.strip on a String. -/
def pyStrip (s : String) : String := String.mk (stripChars s.data)

/-- Decide whether needle occurs as a contiguous sublist (Python in operator). -/
def containsSub (hay needle : List Char) : Bool :=
  match hay with
  | [] => needle.isEmpty
  | _ :: tl => needle.isPrefixOf hay || containsSub tl needle

/-- Python s1 in s2 for strings. -/
def strIn (needle hay : String) : Bool := containsSub hay.data needle.data

/-- Python str.startswith. -/
def startsWith (s pre : String) : Bool := pre.data.isPrefixOf s.data

/-- Python str.endswith. -/
def endsWith (s suf : String) : Bool := suf.data.isSuffixOf s.data

/-- Split a character list at every occurrence of sep (Python str.split(sep)). -/
def splitChar (sep : Char) : List Char → List (List Char)
  | [] => [[]]
  | c :: tl =>
    if c = sep then [] :: splitChar sep tl
    else
      match splitChar sep tl with
      | [] => [[c]]
      | s :: rest => (c :: s) :: rest

/-- Join strings with a separator (the uses of str.join in scope). -/
def joinStr (sep : String) : List String → String
  | [] => ""
  | [x] => x
  | x :: xs => x ++ sep ++ joinStr sep xs

/-! ## Path model

Paths are canonicalised to absolute form "/seg1/seg2/...".  A current
working directory is threaded explicitly; os.chdir, os.path.join,
os.path.abspath and relative-path resolution all go through
resolvePath, which mirrors POSIX resolution including "." and ".."
segments. -/

/-- Split a path on "/" dropping empty and "." segments. -/
def pathSegs (p : String) : List String :=
  ((splitChar '/' p.data).map String.mk).filter (fun s => decide (s ≠ "") && decide (s ≠ "."))

/-- Collapse ".." segments against their parent. -/
def collapseDots (segs : List String) : List String :=
  segs.foldl (fun acc s => if s = ".." then acc.dropLast else acc ++ [s]) []

/-- True when the path is absolute. -/
def isAbsPath (p : String) : Bool := startsWith p "/"

/-- Resolve p against the working directory cwd, producing a canonical absolute path. -/
def resolvePath (cwd p : String) : String :=
  let segs := if isAbsPath p then pathSegs p else pathSegs cwd ++ pathSegs p
  "/" ++ joinStr "/" (collapseDots segs)

/-- Python os.path.join for the two-argument uses in the sources. -/
def pathJoin (a b : String) : String :=
  if isAbsPath b then b else if a = "" then b else a ++ "/" ++ b

/-- Python os.path.basename. -/
def pathBaseName (p : String) : String :=
  match ((splitChar '/' p.data).map String.mk).getLast? with
  | some s => s
  | none => p


/-- String append acts as list append on the character data. -/
theorem strData_append (s t : String) : (s ++ t).data = s.data ++ t.data := rfl

theorem isPrefixOf_nil (xs : List Char) : List.isPrefixOf [] xs = true := by
  cases xs <;> rfl

theorem isPrefixOf_cons_cons (a x : Char) (as xs : List Char) :
    List.isPrefixOf (a :: as) (x :: xs) = ((a == x) && List.isPrefixOf as xs) := rfl

theorem containsSub_nil_needle (b : List Char) : containsSub b [] = true := by
  cases b with
  | nil => rfl
  | cons c tl => simp [containsSub, isPrefixOf_nil]

theorem isPrefixOf_append_ext (n xs ys : List Char) (h : n.isPrefixOf xs = true) :
    n.isPrefixOf (xs ++ ys) = true := by
  induction n generalizing xs with
  | nil => exact isPrefixOf_nil _
  | cons a as ih =>
    cases xs with
    | nil => simp [List.isPrefixOf] at h
    | cons x xs' =>
      simp only [List.cons_append, isPrefixOf_cons_cons, Bool.and_eq_true] at h ⊢
      exact ⟨h.1, ih xs' h.2⟩

theorem containsSub_extend (a b n : List Char) (h : containsSub a n = true) :
    containsSub (a ++ b) n = true := by
  induction a with
  | nil =>
    cases n with
    | nil => exact containsSub_nil_needle b
    | cons m ms => simp [containsSub, List.isEmpty] at h
  | cons c a' ih =>
    simp only [containsSub, Bool.or_eq_true] at h
    simp only [List.cons_append, containsSub, Bool.or_eq_true]
    cases h with
    | inl hp => exact Or.inl (isPrefixOf_append_ext n (c :: a') b hp)
    | inr hc => exact Or.inr (ih hc)

theorem containsSub_skip (a b n : List Char) (h : containsSub b n = true) :
    containsSub (a ++ b) n = true := by
  induction a with
  | nil => exact h
  | cons c a' ih =>
    simp only [List.cons_append, containsSub, Bool.or_eq_true]
    exact Or.inr ih

theorem isPrefixOf_take_len (n xs : List Char) :
    n.isPrefixOf (xs.take n.length) = n.isPrefixOf xs := by
  induction n generalizing xs with
  | nil => rw [isPrefixOf_nil, isPrefixOf_nil]
  | cons a as ih =>
    cases xs with
    | nil => rfl
    | cons x xs' =>
      simp only [List.length_cons, List.take_succ_cons, isPrefixOf_cons_cons, ih]

theorem containsSub_split_false (n0 : Char) (nt a b : List Char)
    (h1 : containsSub (a ++ b.take nt.length) (n0 :: nt) = false)
    (h2 : containsSub b (n0 :: nt) = false) :
    containsSub (a ++ b) (n0 :: nt) = false := by
  induction a with
  | nil => exact h2
  | cons c a' ih =>
    simp only [List.cons_append, containsSub, Bool.or_eq_false_iff] at h1 ⊢
    obtain ⟨hp, hc⟩ := h1
    refine ⟨?_, ih hc⟩
    rw [← isPrefixOf_take_len] at hp ⊢
    have he : (c :: (a' ++ b)).take ((n0 :: nt).length) =
        (c :: (a' ++ b.take nt.length)).take ((n0 :: nt).length) := by
      simp only [List.length_cons, List.take_succ_cons, List.take_append_eq_append_take,
        List.take_take]
      rw [Nat.min_eq_left (Nat.sub_le _ _)]
    rw [he]
    exact hp


/-! ## File-system model -/

/-- In-memory file system: files as (canonical absolute path, content)
pairs, plus explicitly created directories.  List order doubles as the
directory-listing order (Python os.listdir order is unspecified). -/
structure Fs where
  files : List (String × String)
  dirs : List String
deriving Repr, DecidableEq

namespace Fs

/-- Look up the content of the file at canonical absolute path p. -/
def read? (fs : Fs) (p : String) : Option String :=
  (fs.files.find? (fun e => e.1 = p)).map Prod.snd

/-- True when a file exists at canonical absolute path p. -/
def isFile (fs : Fs) (p : String) : Bool :=
  fs.files.any (fun e => e.1 = p)

/-- True when p denotes a directory (explicitly created, or an ancestor of a file). -/
def isDir (fs : Fs) (p : String) : Bool :=
  fs.dirs.contains p || fs.files.any (fun e => startsWith e.1 (p ++ "/"))

/-- Python os.path.exists on a canonical absolute path. -/
def exists' (fs : Fs) (p : String) : Bool := fs.isFile p || fs.isDir p

/-- Write (create or overwrite) the file at canonical absolute path p. -/
def write (fs : Fs) (p content : String) : Fs :=
  if fs.isFile p then
    { fs with files := fs.files.map (fun e => if e.1 = p then (p, content) else e) }
  else
    { fs with files := fs.files ++ [(p, content)] }

/-- Python os.makedirs with exist_ok: record the directory. -/
def makedirs (fs : Fs) (p : String) : Fs :=
  if fs.dirs.contains p then fs else { fs with dirs := fs.dirs ++ [p] }

/-- Immediate children names of directory d that are files, in fs order
(the slice of os.listdir the sources iterate over when they filter by
file suffix). -/
def listFiles (fs : Fs) (d : String) : List String :=
  (fs.files.filterMap (fun e =>
    if startsWith e.1 (d ++ "/") then
      let rest := String.mk (e.1.data.drop (d ++ "/").data.length)
      if strIn "/" rest then none else some rest
    else none))

/-- Every file path under directory d (the file part of os.walk). -/
def filesUnder (fs : Fs) (d : String) : List String :=
  fs.files.filterMap (fun e => if startsWith e.1 (d ++ "/") then some e.1 else none)

end Fs

/-! ## Python exceptions -/

/-- The Python exception values the embedding distinguishes. -/
inductive PyErr where
  | keyError (k : String)
  | typeError (msg : String)
  | attributeError (msg : String)
  | exc (msg : String)
deriving Repr, DecidableEq

/-! ## JSON model (json.loads / json.dumps) -/

/-- JSON values.  Numbers carry their integer part (see file header). -/
inductive JVal where
  | jnull
  | jbool (b : Bool)
  | jnum (n : Int)
  | jstr (s : String)
  | jarr (xs : List JVal)
  | jobj (kvs : List (String × JVal))
deriving Repr

namespace JVal

/-- Structural equality of JSON values. -/
def jeq : JVal → JVal → Bool
  | jnull, jnull => true
  | jbool a, jbool b => a = b
  | jnum a, jnum b => a = b
  | jstr a, jstr b => a = b
  | jarr xs, jarr ys =>
    (match xs, ys with
     | [], [] => true
     | x :: xs, y :: ys => jeq x y && jeq (jarr xs) (jarr ys)
     | _, _ => false)
  | jobj xs, jobj ys =>
    (match xs, ys with
     | [], [] => true
     | (k, x) :: xs, (l, y) :: ys => k = l && jeq x y && jeq (jobj xs) (jobj ys)
     | _, _ => false)
  | _, _ => false

instance : BEq JVal := ⟨jeq⟩

/-- Python dict.get with default None: lookup in an object, none when absent. -/
def objGet (kvs : List (String × JVal)) (k : String) : Option JVal :=
  (kvs.find? (fun e => e.1 = k)).map Prod.snd

/-- Python d[k] on an arbitrary value: KeyError when the key is absent,
TypeError on non-dict values (as for string/list indexing with a str key). -/
def getItem (v : JVal) (k : String) : Except PyErr JVal :=
  match v with
  | jobj kvs =>
    match objGet kvs k with
    | some x => .ok x
    | none => .error (.keyError k)
  | _ => .error (.typeError "indices must be valid for the value type")

/-- Python d.get(k, default) on an arbitrary value: AttributeError on non-dicts. -/
def getAttrDefault (v : JVal) (k : String) (d : JVal) : Except PyErr JVal :=
  match v with
  | jobj kvs =>
    match objGet kvs k with
    | some x => .ok x
    | none => .ok d
  | _ => .error (.attributeError "object has no attribute get")

/-- Python truthiness of a JSON value. -/
def pyTruthy : JVal → Bool
  | jnull => false
  | jbool b => b
  | jnum n => n ≠ 0
  | jstr s => s ≠ ""
  | jarr xs => ¬ xs.isEmpty
  | jobj kvs => ¬ kvs.isEmpty

/-- Equality test between a JSON value and a string literal (Python v == "s"). -/
def eqStr (v : JVal) (s : String) : Bool :=
  match v with
  | jstr t => t = s
  | _ => false

end JVal

/-! ### JSON parser (json.loads)

A fuel-indexed recursive-descent parser.  It accepts the JSON grammar;
numbers with fractional or exponent parts are consumed syntactically
and truncated to their integer part (no value in the sources round-trips
a non-integer number).  Parse failure models json.JSONDecodeError. -/

/-- Read a maximal run of decimal digits, returning the run and the rest. -/
def takeDigits (cs : List Char) : List Char × List Char :=
  (cs.takeWhile Char.isDigit, cs.dropWhile Char.isDigit)

/-- Numeric value of a digit list. -/
def digitsVal (ds : List Char) : Nat :=
  ds.foldl (fun a c => a * 10 + (c.toNat - '0'.toNat)) 0

/-- Value of a hexadecimal digit. -/
def hexVal (c : Char) : Nat :=
  if c.isDigit then c.toNat - '0'.toNat
  else if 'a' ≤ c ∧ c ≤ 'f' then c.toNat - 'a'.toNat + 10
  else if 'A' ≤ c ∧ c ≤ 'F' then c.toNat - 'A'.toNat + 10
  else 0

/-- Parse the body of a JSON string literal after the opening quote. -/
def parseJStr (fuel : Nat) (cs : List Char) (acc : List Char) : Option (String × List Char) :=
  match fuel, cs with
  | 0, _ => none
  | _, [] => none
  | fuel + 1, c :: rest =>
    if c = '"' then some (String.mk acc.reverse, rest)
    else if c = '\\' then
      match rest with
      | [] => none
      | e :: rest2 =>
        if e = '"' then parseJStr fuel rest2 ('"' :: acc)
        else if e = '\\' then parseJStr fuel rest2 ('\\' :: acc)
        else if e = '/' then parseJStr fuel rest2 ('/' :: acc)
        else if e = 'n' then parseJStr fuel rest2 ('\n' :: acc)
        else if e = 't' then parseJStr fuel rest2 ('\t' :: acc)
        else if e = 'r' then parseJStr fuel rest2 ('\r' :: acc)
        else if e = 'b' then parseJStr fuel rest2 ('\x08' :: acc)
        else if e = 'f' then parseJStr fuel rest2 ('\x0c' :: acc)
        else if e = 'u' then
          match rest2 with
          | h1 :: h2 :: h3 :: h4 :: rest3 =>
            if (h1.isDigit || ('a' ≤ h1 && h1 ≤ 'f') || ('A' ≤ h1 && h1 ≤ 'F')) &&
               (h2.isDigit || ('a' ≤ h2 && h2 ≤ 'f') || ('A' ≤ h2 && h2 ≤ 'F')) &&
               (h3.isDigit || ('a' ≤ h3 && h3 ≤ 'f') || ('A' ≤ h3 && h3 ≤ 'F')) &&
               (h4.isDigit || ('a' ≤ h4 && h4 ≤ 'f') || ('A' ≤ h4 && h4 ≤ 'F')) then
              parseJStr fuel rest3
                (Char.ofNat (((hexVal h1 * 16 + hexVal h2) * 16 + hexVal h3) * 16 + hexVal h4) :: acc)
            else none
          | _ => none
        else none
    else parseJStr fuel rest (c :: acc)

mutual

/-- Parse one JSON value from the front of cs. -/
def parseJVal (fuel : Nat) (cs : List Char) : Option (JVal × List Char) :=
  match fuel with
  | 0 => none
  | fuel + 1 =>
    match dropWsLeft cs with
    | [] => none
    | c :: rest =>
      if c = 'n' then
        if ['u', 'l', 'l'].isPrefixOf rest then some (.jnull, rest.drop 3) else none
      else if c = 't' then
        if ['r', 'u', 'e'].isPrefixOf rest then some (.jbool true, rest.drop 3) else none
      else if c = 'f' then
        if ['a', 'l', 's', 'e'].isPrefixOf rest then some (.jbool false, rest.drop 4) else none
      else if c = '"' then
        match parseJStr fuel rest [] with
        | some (s, rest2) => some (.jstr s, rest2)
        | none => none
      else if c = '[' then
        match dropWsLeft rest with
        | ']' :: rest2 => some (.jarr [], rest2)
        | _ => parseJArr fuel rest []
      else if c = '\x7b' then
        match dropWsLeft rest with
        | '\x7d' :: rest2 => some (.jobj [], rest2)
        | _ => parseJObj fuel rest []
      else if c = '-' ∨ c.isDigit then
        let (neg, cs1) : Bool × List Char := if c = '-' then (true, rest) else (false, c :: rest)
        match takeDigits cs1 with
        | ([], _) => none
        | (ds, cs2) =>
          let cs3 :=
            match cs2 with
            | '.' :: cs2a =>
              (match takeDigits cs2a with
               | ([], _) => cs2
               | (_, cs2b) => cs2b)
            | _ => cs2
          let cs4 :=
            match cs3 with
            | 'e' :: cs3a =>
              (match cs3a with
               | '+' :: cs3b => (takeDigits cs3b).2
               | '-' :: cs3b => (takeDigits cs3b).2
               | _ => (takeDigits cs3a).2)
            | 'E' :: cs3a =>
              (match cs3a with
               | '+' :: cs3b => (takeDigits cs3b).2
               | '-' :: cs3b => (takeDigits cs3b).2
               | _ => (takeDigits cs3a).2)
            | _ => cs3
          let n : Int := if neg then -(digitsVal ds : Int) else (digitsVal ds : Int)
          some (.jnum n, cs4)
      else none

/-- Parse the elements of a JSON array after the opening bracket. -/
def parseJArr (fuel : Nat) (cs : List Char) (acc : List JVal) : Option (JVal × List Char) :=
  match fuel with
  | 0 => none
  | fuel + 1 =>
    match parseJVal fuel cs with
    | none => none
    | some (v, rest) =>
      match dropWsLeft rest with
      | ',' :: rest2 => parseJArr fuel rest2 (v :: acc)
      | ']' :: rest2 => some (.jarr (v :: acc).reverse, rest2)
      | _ => none

/-- Parse the members of a JSON object after the opening brace. -/
def parseJObj (fuel : Nat) (cs : List Char) (acc : List (String × JVal)) :
    Option (JVal × List Char) :=
  match fuel with
  | 0 => none
  | fuel + 1 =>
    match dropWsLeft cs with
    | '"' :: rest =>
      match parseJStr fuel rest [] with
      | none => none
      | some (k, rest2) =>
        match dropWsLeft rest2 with
        | ':' :: rest3 =>
          match parseJVal fuel rest3 with
          | none => none
          | some (v, rest4) =>
            match dropWsLeft rest4 with
            | ',' :: rest5 => parseJObj fuel rest5 ((k, v) :: acc)
            | '\x7d' :: rest5 => some (.jobj ((k, v) :: acc).reverse, rest5)
            | _ => none
        | _ => none
    | _ => none

end

/-- Python json.loads: parse a whole string as one JSON document. -/
def jsonLoads (s : String) : Option JVal :=
  match parseJVal (s.length + 1) s.data with
  | some (v, rest) => if (dropWsLeft rest).isEmpty then some v else none
  | none => none

/-- Escape one character for a JSON string literal (the folders the
sources dump contain no characters needing numeric escapes). -/
def jsonEscChar (c : Char) : List Char :=
  if c = '"' then ['\\', '"']
  else if c = '\\' then ['\\', '\\']
  else if c = '\n' then ['\\', 'n']
  else if c = '\t' then ['\\', 't']
  else if c = '\r' then ['\\', 'r']
  else [c]

/-- Python json.dumps for a string. -/
def jsonDumpStr (s : String) : String :=
  "\"" ++ String.mk (s.data.flatMap jsonEscChar) ++ "\""

/-- Python json.dumps for a list of strings. -/
def jsonDumpStrList (xs : List String) : String :=
  "[" ++ joinStr ", " (xs.map jsonDumpStr) ++ "]"

/-! ## Regular-expression scanners

Each concrete pattern in the sources becomes one scanner with Python
re.search semantics: positions are tried left to right and at each
position the pattern is matched with greedy quantifiers and ordered
alternation (backtracking where an optional group is followed by more
pattern). -/

/-- Try an attempt function at every suffix, leftmost first. -/
def searchAt {α : Type} (f : List Char → Option α) : List Char → Option α
  | [] => f []
  | cs@(_ :: tl) =>
    match f cs with
    | some r => some r
    | none => searchAt f tl

/-- Drop a case-sensitive literal from the front. -/
def dropLit (lit : String) (cs : List Char) : Option (List Char) :=
  if lit.data.isPrefixOf cs then some (cs.drop lit.data.length) else none

/-- Drop a case-insensitive literal (given lower-case) from the front. -/
def dropLitCI (lit : String) (cs : List Char) : Option (List Char) :=
  if lit.data.isPrefixOf (lowerChars (cs.take lit.data.length)) then
    some (cs.drop lit.data.length)
  else none

/-- Require at least one whitespace character, drop the whole run. -/
def wsPlus (cs : List Char) : Option (List Char) :=
  match cs with
  | c :: tl => if isWs c then some (tl.dropWhile isWs) else none
  | [] => none

/-- Drop an optional whitespace run. -/
def wsStar (cs : List Char) : List Char := cs.dropWhile isWs

/-- Require at least one digit; return the value of the greedy run. -/
def digitsPlus (cs : List Char) : Option (Nat × List Char) :=
  match cs with
  | c :: _ =>
    if c.isDigit then
      let (ds, rest) := takeDigits cs
      some (digitsVal ds, rest)
    else none
  | [] => none

/-- Greedy optional group g followed by continuation k, with backtracking. -/
def greedyOpt {α : Type} (g : List Char → Option (List Char)) (k : List Char → Option α)
    (cs : List Char) : Option α :=
  match g cs with
  | some rest =>
    (match k rest with
     | some r => some r
     | none => k cs)
  | none => k cs

/-- Drop one quote character, either single or double. -/
def dropQuote (cs : List Char) : Option (List Char) :=
  match cs with
  | c :: tl => if c = '\'' ∨ c = '"' then some tl else none
  | [] => none

/-- The optional group process\.env\.PORT\s*\|\|\s* . -/
def procEnvPortGroup (cs : List Char) : Option (List Char) := do
  let r1 ← dropLit "process.env.PORT" cs
  let r2 ← dropLit "||" (wsStar r1)
  pure (wsStar r2)

/-- Pattern EXPOSE\s+(\d+) with IGNORECASE (Dockerfile scan). -/
def exposeSearch (cs : List Char) : Option Nat :=
  searchAt (fun s => do
    let r1 ← dropLitCI "expose" s
    let r2 ← wsPlus r1
    let (n, _) ← digitsPlus r2
    pure n) cs

/-- Pattern ports:\s*-\s*["\x27]?(\d+):\d+["\x27]? (docker-compose scan). -/
def composePortsSearch (cs : List Char) : Option Nat :=
  searchAt (fun s => do
    let r1 ← dropLit "ports:" s
    let r2 ← dropLit "-" (wsStar r1)
    greedyOpt dropQuote
      (fun r3 => do
        let (n, r4) ← digitsPlus r3
        let r5 ← dropLit ":" r4
        let (_, _) ← digitsPlus r5
        pure n)
      (wsStar r2)) cs

/-- Pattern port:\s*(\d+) (next.config.js / nuxt.config.js scan). -/
def portColonSearch (cs : List Char) : Option Nat :=
  searchAt (fun s => do
    let r1 ← dropLit "port:" s
    let (n, _) ← digitsPlus (wsStar r1)
    pure n) cs

/-- Pattern \.listen\(\s*(?:process\.env\.PORT\s*\|\|\s*)?(\d+) . -/
def listenSearch (cs : List Char) : Option Nat :=
  searchAt (fun s => do
    let r1 ← dropLit ".listen(" s
    greedyOpt procEnvPortGroup (fun r2 => (digitsPlus r2).map Prod.fst) (wsStar r1)) cs

/-- Pattern (?:PORT|port)\s*=\s*(?:process\.env\.PORT\s*\|\|\s*)?(\d+) . -/
def portAssignSearch (cs : List Char) : Option Nat :=
  searchAt (fun s => do
    let r1 ←
      match dropLit "PORT" s with
      | some r => some r
      | none => dropLit "port" s
    let r2 ← dropLit "=" (wsStar r1)
    greedyOpt procEnvPortGroup (fun r3 => (digitsPlus r3).map Prod.fst) (wsStar r2)) cs

/-- Pattern app\.set\(\s*[\x27"]port[\x27"]\s*,\s*(?:process\.env\.PORT\s*\|\|\s*)?(\d+) . -/
def appSetPortSearch (cs : List Char) : Option Nat :=
  searchAt (fun s => do
    let r1 ← dropLit "app.set(" s
    let r2 ← dropQuote (wsStar r1)
    let r3 ← dropLit "port" r2
    let r4 ← dropQuote r3
    let r5 ← dropLit "," (wsStar r4)
    greedyOpt procEnvPortGroup (fun r6 => (digitsPlus r6).map Prod.fst) (wsStar r5)) cs

/-- Pattern (?:port|PORT)["\x27:\s]+(\d+) (generic config-object scan). -/
def configPortSearch (cs : List Char) : Option Nat :=
  searchAt (fun s => do
    let r1 ←
      match dropLit "port" s with
      | some r => some r
      | none => dropLit "PORT" s
    match r1 with
    | c :: tl =>
      if c = '"' ∨ c = '\'' ∨ c = ':' ∨ isWs c then
        (digitsPlus (tl.dropWhile (fun d => d = '"' ∨ d = '\'' ∨ d = ':' ∨ isWs d))).map Prod.fst
      else none
    | [] => none) cs

/-- Pattern VAR=(\d+) for a literal variable name (env-file scans). -/
def varEqSearch (varName : String) (cs : List Char) : Option Nat :=
  searchAt (fun s => do
    let r1 ← dropLit (varName ++ "=") s
    (digitsPlus r1).map Prod.fst) cs

/-- Pattern =\s*["\x27]?(\d+)["\x27]? (database-port extraction from an env line). -/
def eqNumSearch (cs : List Char) : Option Nat :=
  searchAt (fun s => do
    let r1 ← dropLit "=" s
    greedyOpt dropQuote (fun r2 => (digitsPlus r2).map Prod.fst) (wsStar r1)) cs

/-- Word-boundary-aware search: the attempt also sees the previous character. -/
def searchAtPrev {α : Type} (f : Option Char → List Char → Option α) :
    Option Char → List Char → Option α
  | prev, [] => f prev []
  | prev, cs@(c :: tl) =>
    match f prev cs with
    | some r => some r
    | none => searchAtPrev f (some c) tl

/-- Python regex word character class \w (sources are ASCII). -/
def isWordChar (c : Char) : Bool := c.isAlphanum ∨ c = '_'

/-- Pattern \brequire\([\x27"](lib)[\x27"] for a fixed library name. -/
def requireImportSearch (lib : String) (cs : List Char) : Bool :=
  (searchAtPrev (fun prev s => do
    match prev with
    | some p => if isWordChar p then none else pure ()
    | none => pure ()
    let r1 ← dropLit "require(" s
    let r2 ← dropQuote r1
    let r3 ← dropLit lib r2
    let _ ← dropQuote r3
    pure ()) none cs).isSome

/-- Pattern from\s+[\x27"](lib)[\x27"] for a fixed library name. -/
def fromImportSearch (lib : String) (cs : List Char) : Bool :=
  (searchAt (fun s => do
    let r1 ← dropLit "from" s
    let r2 ← wsPlus r1
    let r3 ← dropQuote r2
    let r4 ← dropLit lib r3
    let _ ← dropQuote r4
    pure ()) cs).isSome

/-- Pattern new\s+Sequelize . -/
def newSequelizeSearch (cs : List Char) : Bool :=
  (searchAt (fun s => do
    let r1 ← dropLit "new" s
    let r2 ← wsPlus r1
    dropLit "Sequelize" r2) cs).isSome

/-- The first database connection pattern of extract_app_details:
createConnection|createPool|connect\(|new\s+Sequelize|mongoose\.connect . -/
def connPattern1 (cs : List Char) : Bool :=
  containsSub cs "createConnection".data || containsSub cs "createPool".data ||
  containsSub cs "connect(".data || newSequelizeSearch cs ||
  containsSub cs "mongoose.connect".data

/-- The second connection pattern: postgresql:|postgres:|mysql:|mongodb:|sqlite:|db: . -/
def connPattern2 (cs : List Char) : Bool :=
  containsSub cs "postgresql:".data || containsSub cs "postgres:".data ||
  containsSub cs "mysql:".data || containsSub cs "mongodb:".data ||
  containsSub cs "sqlite:".data || containsSub cs "db:".data

/-- The third connection pattern: DATABASE_URL|DB_URI|MONGODB_URI . -/
def connPattern3 (cs : List Char) : Bool :=
  containsSub cs "DATABASE_URL".data || containsSub cs "DB_URI".data ||
  containsSub cs "MONGODB_URI".data

/-- The fourth connection pattern: process\.env\.DB_|process\.env\.DATABASE_ . -/
def connPattern4 (cs : List Char) : Bool :=
  containsSub cs "process.env.DB_".data || containsSub cs "process.env.DATABASE_".data

/-! ## cleanup_terraform.py -/

namespace Cleanup

/-- The resource identifiers extract_all_resource_ids collects from a
terraform.tfstate file (cleanup_terraform.py lines 86-130).  Python
appends the raw attribute values, hence lists of JSON values. -/
structure ResourceIds where
  elastic_ips : List JVal
  iam_policies : List JVal
  iam_roles : List JVal
deriving Repr

/-- The empty accumulator the Python function starts from. -/
def emptyIds : ResourceIds := ⟨[], [], []⟩

/-- Process the instance list of one resource of known type, mirroring
the three instance loops.  Returns the new accumulator and true when a
Python exception interrupted the loop (a non-dict instance or a value of
attributes without .get); the accumulator then holds the partial state,
because the source mutates resource_ids in place and the enclosing
except handler falls through to returning it. -/
def collectInstances (rtype : String) (instances : JVal) (acc : ResourceIds) :
    ResourceIds × Bool :=
  match instances with
  | .jarr insts =>
    insts.foldl
      (fun (st : ResourceIds × Bool) inst =>
        if st.2 then st else
        match inst with
        | .jobj ikvs =>
          let attributes := (JVal.objGet ikvs "attributes").getD (.jobj [])
          match attributes with
          | .jobj akvs =>
            if rtype = "aws_eip" then
              match JVal.objGet akvs "allocation_id" with
              | some v => if v.pyTruthy then ({ st.1 with elastic_ips := st.1.elastic_ips ++ [v] }, false) else (st.1, false)
              | none => (st.1, false)
            else if rtype = "aws_iam_policy" then
              match JVal.objGet akvs "arn" with
              | some v => if v.pyTruthy then ({ st.1 with iam_policies := st.1.iam_policies ++ [v] }, false) else (st.1, false)
              | none => (st.1, false)
            else
              match JVal.objGet akvs "name" with
              | some v => if v.pyTruthy then ({ st.1 with iam_roles := st.1.iam_roles ++ [v] }, false) else (st.1, false)
              | none => (st.1, false)
          | _ => (st.1, true)
        | _ => (st.1, true))
      (acc, false)
  | _ => (acc, true)

/-- Process the resource list, mirroring the outer loop over
state_data.resources with its type dispatch. -/
def collectResources (resources : List JVal) (acc : ResourceIds) : ResourceIds × Bool :=
  match resources with
  | [] => (acc, false)
  | r :: rest =>
    match r with
    | .jobj kvs =>
      let rtype := (JVal.objGet kvs "type").getD (.jstr "")
      let rtypeS := match rtype with | .jstr s => s | _ => ""
      if rtypeS = "aws_eip" ∨ rtypeS = "aws_iam_policy" ∨ rtypeS = "aws_iam_role" then
        let instances := (JVal.objGet kvs "instances").getD (.jarr [])
        let (acc2, aborted) := collectInstances rtypeS instances acc
        if aborted then (acc2, true) else collectResources rest acc2
      else collectResources rest acc
    | _ => (acc, true)

/-- cleanup_terraform.extract_all_resource_ids.  The state-file path is
os.path.join(directory, "terraform.tfstate") resolved against the
CURRENT working directory at call time; any exception while reading or
walking the JSON is caught and the accumulator gathered so far is
returned. -/
def extract_all_resource_ids (fs : Fs) (cwd directory : String) : ResourceIds :=
  let stateP := resolvePath cwd (pathJoin directory "terraform.tfstate")
  match fs.read? stateP with
  | none => emptyIds
  | some content =>
    match jsonLoads content with
    | none => emptyIds
    | some state =>
      match state with
      | .jobj kvs =>
        match (JVal.objGet kvs "resources").getD (.jarr []) with
        | .jarr rs => (collectResources rs emptyIds).1
        | _ => emptyIds
      | _ => emptyIds

/-- Result of one subprocess.run of terraform init. -/
structure TfRunRes where
  returncode : Int
  stderrText : String
deriving Repr

/-- Outcome of the streamed terraform destroy (Popen, stream, wait with
a 600 second timeout): normal exit with a code, or TimeoutExpired. -/
inductive DestroyOutcome where
  | exited (code : Int)
  | timedOut
deriving Repr

/-- Oracle for the two external terraform invocations inside
destroy_terraform_infrastructure; the error side models any other
exception the call raises (e.g. a missing terraform binary). -/
structure DestroyEnv where
  initOutcome : Except PyErr TfRunRes
  destroyOutcome : Except PyErr DestroyOutcome

/-- What destroy_terraform_infrastructure did: its boolean result, the
working directory when it returns, and the argument of each invocation
of direct_cleanup_aws_resources (whose body only drives external AWS
calls and is out of scope per the spec). -/
structure DestroyResult where
  ok : Bool
  cwd : String
  cleanupCalls : List ResourceIds
deriving Repr

/-- cleanup_terraform.destroy_terraform_infrastructure (lines 272-363):
check existence, chdir in, glob *.tf, extract resource ids, run init
then destroy, invoking the direct cleanup on init failure, destroy
failure or timeout, and restoring the original working directory on
every exit path (the except handler also restores). -/
def destroy_terraform_infrastructure (env : DestroyEnv) (fs : Fs) (cwd directory : String) :
    DestroyResult :=
  if ¬ fs.exists' (resolvePath cwd directory) then
    { ok := false, cwd := cwd, cleanupCalls := [] }
  else
    let original_dir := cwd
    let target := resolvePath cwd directory
    if ¬ fs.isDir target then
      -- os.chdir raises NotADirectoryError; the except handler restores
      -- the (unchanged) original directory and returns False.
      { ok := false, cwd := original_dir, cleanupCalls := [] }
    else
      let cwd1 := target
      let tf_files := (fs.listFiles cwd1).filter (fun f => endsWith f ".tf")
      if tf_files.isEmpty then
        { ok := false, cwd := original_dir, cleanupCalls := [] }
      else
        let resource_ids := extract_all_resource_ids fs cwd1 directory
        match env.initOutcome with
        | .error _ => { ok := false, cwd := original_dir, cleanupCalls := [] }
        | .ok initRes =>
          if initRes.returncode ≠ 0 then
            { ok := false, cwd := original_dir, cleanupCalls := [resource_ids] }
          else
            match env.destroyOutcome with
            | .error _ => { ok := false, cwd := original_dir, cleanupCalls := [] }
            | .ok (.exited code) =>
              if code ≠ 0 then
                { ok := false, cwd := original_dir, cleanupCalls := [resource_ids] }
              else
                { ok := true, cwd := original_dir, cleanupCalls := [] }
            | .ok .timedOut =>
              { ok := false, cwd := original_dir, cleanupCalls := [resource_ids] }

end Cleanup

/-! ### Theorems about cleanup_terraform.py -/

namespace Cleanup

/-- A terraform.tfstate content naming one aws_eip resource with
allocation id eipalloc-1. -/
def stateJsonC5 : String :=
  "\x7b\"resources\": [\x7b\"type\": \"aws_eip\", \"instances\": [\x7b\"attributes\": \x7b\"allocation_id\": \"eipalloc-1\"\x7d\x7d]\x7d]\x7d"

/-- A file system with one deployment directory /work/deploy1 holding a
.tf file and the state file above; the process works from /work. -/
def fsC5 : Fs :=
  { files := [("/work/deploy1/main.tf", "module x"), ("/work/deploy1/terraform.tfstate", stateJsonC5)],
    dirs := ["/work", "/work/deploy1"] }

/-- External outcomes: terraform init fails, so the direct-cleanup
fallback fires. -/
def envC5 : DestroyEnv :=
  { initOutcome := .ok ⟨1, "backend error"⟩, destroyOutcome := .ok (.exited 0) }

end Cleanup

/-- C5: for the relative deployment directory "deploy1" run from /work,
whose state file names the elastic IP allocation id eipalloc-1, the
extraction performed from the original working directory does find that
id, yet destroy_terraform_infrastructure — which calls
extract_all_resource_ids only after os.chdir into the directory, with
the still-relative path, so that it looks for
/work/deploy1/deploy1/terraform.tfstate — invokes the direct-API
cleanup on init failure with entirely empty identifier lists instead of
the extracted ones. -/
theorem C5_destroy_cleanup_gets_empty_ids :
    Cleanup.extract_all_resource_ids Cleanup.fsC5 "/work" "deploy1" =
      ⟨[.jstr "eipalloc-1"], [], []⟩ ∧
    (Cleanup.destroy_terraform_infrastructure Cleanup.envC5 Cleanup.fsC5 "/work" "deploy1").ok = false ∧
    (Cleanup.destroy_terraform_infrastructure Cleanup.envC5 Cleanup.fsC5 "/work" "deploy1").cleanupCalls =
      [Cleanup.emptyIds] := by
  refine ⟨rfl, rfl, rfl⟩

/-! ## q_agent.py: website and app builders -/

namespace QAgent

/-- Outcome of one external tool invocation: exit code and the combined
streamed stdout the Python code captured. -/
structure ToolRun where
  returncode : Int
  stdout : String
deriving Repr

/-- Oracle for QAgent.build_website / build_app.  directOutcome covers
the whole direct-approach try block (permission priming plus the
streamed q chat run): .error is any exception there, which sends the
source to the fallback-script approach.  The effect functions are the
file-system side effects of the external child processes (q writing
generated files; the fallback script also tees q_output.log and may
produce q_explicit_output.log).  lsOutput is the captured text of the
final ls -la. -/
structure BuildEnv where
  qAvailable : Bool
  directOutcome : Except PyErr ToolRun
  directEffect : Fs → Fs
  scriptRun : ToolRun
  scriptEffect : Fs → Fs
  lsOutput : String

/-- A file system together with the log of writes the Python code
itself performed (external effects are not logged). -/
def WState : Type := Fs × List (String × String)

/-- Write a file and log the write. -/
def wwrite (w : WState) (p c : String) : WState :=
  (w.1.write p c, w.2 ++ [(p, c)])

/-- The prompt build_website pipes to q chat (q_agent.py lines 294-307). -/
def websitePrompt (requirements : String) : String :=
  "TASK: Create the following web project: " ++ requirements ++ "\n\nIMPORTANT:\n1. Please use /tools trust fs_write to get permission to write files\n2. You MUST create all necessary files to implement this request\n3. Please use the fs_write tool to SAVE your implementation in the current directory\n4. You have full permission to write files here - make sure to use the fs_write tool\n\nExample of writing a file:\n1. First run: /tools trust fs_write\n2. Then use the fs_write tool to create index.html\n3. Include all necessary HTML, CSS, and JavaScript\n\nIf the user wants a simple page, create that. If they want a complex app or interactive website, implement that. Don\x27t be limited to simple solutions - use your capabilities to create what best meets the requirements."

/-- The fallback bash script build_website writes to run_q.sh
(lines 378-421), including the explicit-permission retry that may
produce q_explicit_output.log. -/
def websiteRunScript : String :=
  "#!/bin/bash\ncd \"$PWD\"\n\n# Set up permissions\necho \"[INFO] Setting up Q CLI tool permissions...\"\necho \"/tools trust fs_write\" | q chat --trust-all-tools\necho \"/tools trust fs_read\" | q chat --trust-all-tools\necho \"/tools trustall\" | q chat --trust-all-tools\n\n# Add a sleep to make sure permissions take effect\nsleep 1\n\n# Verify permissions\necho \"[INFO] Verifying Q CLI permissions...\"\necho \"/tools\" | q chat --trust-all-tools\n\n# Run Q CLI with the prompt file\necho \"\"\necho \"[INFO] Running Q CLI with the provided prompt...\"\necho \"This may take a few minutes. You\x27ll see progress below:\"\necho \"==================================================\"\ncat prompt.txt | q chat --trust-all-tools 2>&1 | tee q_output.log\necho \"==================================================\"\necho \"[INFO] Q CLI execution completed with result code $?\"\n\n# Check for HTML files\nif [ -f index.html ]; then\n  echo \"[INFO] index.html file created successfully\"\n  echo \"[INFO] File size: $(ls -lh index.html | awk \x27\x7bprint $5\x7d\x27)\"\nelse\n  echo \"[WARN] index.html file NOT found after Q CLI execution\"\n\n  # Try an alternative approach with explicit permissions\n  echo \"[INFO] Trying alternative approach with explicit permissions...\"\n  echo \"/tools trust fs_write\" | q chat --trust-all-tools\n  echo \"/tools trustall\" | q chat --trust-all-tools\n  REQ=$(cat requirements.txt)\n  echo \"Create an HTML file for this request: $REQ\" | q chat --trust-all-tools | tee q_explicit_output.log\nfi\n\n# List created files\necho \"[INFO] Files created:\"\nls -la\n"

/-- The minimal fallback page build_website synthesises (lines 556-592). -/
def minimalHtml (displayText : String) : String :=
  "<!DOCTYPE html>\n<html lang=\"en\">\n<head>\n    <meta charset=\"UTF-8\">\n    <meta name=\"viewport\" content=\"width=device-width, initial-scale=1.0\">\n    <title>" ++ displayText ++ "</title>\n    <style>\n        body \x7b\n            font-family: \x27Arial\x27, sans-serif;\n            display: flex;\n            justify-content: center;\n            align-items: center;\n            height: 100vh;\n            margin: 0;\n            background: linear-gradient(120deg, #a1c4fd, #c2e9fb);\n            color: #333;\n        \x7d\n        .content \x7b\n            text-align: center;\n            padding: 3rem;\n            background-color: white;\n            border-radius: 8px;\n            box-shadow: 0 10px 20px rgba(0,0,0,0.1);\n            max-width: 80%;\n        \x7d\n        h1 \x7b\n            margin: 0;\n            font-size: 3rem;\n        \x7d\n    </style>\n</head>\n<body>\n    <div class=\"content\">\n        <h1>" ++ displayText ++ "</h1>\n    </div>\n</body>\n</html>"

/-! ### The HTML recovery scanners of build_website -/

/-- Capture characters up to and including the first case-insensitive
occurrence of the html closing tag. -/
def captureToHtmlEnd : List Char → Option (List Char)
  | [] => none
  | cs@(c :: tl) =>
    if "</html>".data.isPrefixOf (lowerChars (cs.take 7)) then some (cs.take 7)
    else (captureToHtmlEnd tl).map (fun r => c :: r)

/-- Pattern <!DOCTYPE html>[\s\S]*?<\/html> with IGNORECASE: leftmost
doctype, lazily extended to the first closing tag. -/
def doctypeSearch (cs : List Char) : Option String :=
  (searchAt (fun s =>
    if "<!doctype html>".data.isPrefixOf (lowerChars (s.take 15)) then captureToHtmlEnd s
    else none) cs).map String.mk

/-- Strip trailing whitespace of a character list. -/
def stripWsRight (cs : List Char) : List Char := (cs.reverse.dropWhile isWs).reverse

/-- Capture characters up to the next triple backtick, also returning
the rest after it. -/
def takeUntilTicks : List Char → Option (List Char × List Char)
  | [] => none
  | cs@(c :: tl) =>
    if "\x60\x60\x60".data.isPrefixOf cs then some ([], cs.drop 3)
    else (takeUntilTicks tl).map (fun r => (c :: r.1, r.2))

/-- Leftmost occurrence of a literal; returns the rest after it. -/
def findAfterLit (lit : String) (cs : List Char) : Option (List Char) :=
  searchAt (dropLit lit) cs

/-- findall of the html code-block pattern: every fenced html block,
with surrounding whitespace of the capture stripped. -/
def findHtmlCodeBlocks (fuel : Nat) (cs : List Char) : List String :=
  match fuel with
  | 0 => []
  | fuel + 1 =>
    match findAfterLit "\x60\x60\x60html" cs with
    | none => []
    | some rest =>
      match takeUntilTicks (rest.dropWhile isWs) with
      | none => []
      | some (cap, rest2) => String.mk (stripWsRight cap) :: findHtmlCodeBlocks fuel rest2

/-- Content after the first match of \+\s+\d+: in a line. -/
def plusNumColonAfter (line : List Char) : Option (List Char) :=
  searchAt (fun s => do
    let r1 ← dropLit "+" s
    let r2 ← wsPlus r1
    let (_, r3) ← digitsPlus r2
    dropLit ":" r3) line

/-- The diff-style reconstruction of HTML from the explicit output log
(lines 513-528): collect the content of numbered plus-lines, starting at
one containing a tag, stopping at the first non-plus line. -/
def formattedHtmlLines (content : String) : List String :=
  (((splitChar '\n' content.data).map String.mk).foldl
    (fun (st : Bool × List String) line =>
      match plusNumColonAfter line.data with
      | some rest =>
        if strIn "<" line || st.1 then (true, st.2 ++ [String.mk (stripChars rest)])
        else st
      | none =>
        if st.1 ∧ (pyStrip line ≠ "" ∧ ¬ startsWith (pyStrip line) "+") then (false, st.2)
        else st)
    (false, [])).2

/-- Pattern says\s+(.+) with IGNORECASE over the requirements text. -/
def saysSearch (cs : List Char) : Option String :=
  searchAt (fun s => do
    let r1 ← dropLitCI "says" s
    let r2 ← wsPlus r1
    match r2.takeWhile (fun c => c ≠ '\n') with
    | [] => none
    | l => some (String.mk l)) cs

/-- The text shown by the minimal fallback page: everything after
"says", else the whole requirements. -/
def displayTextOf (requirements : String) : String :=
  match saysSearch requirements.data with
  | some t => pyStrip t
  | none => requirements

/-- The two-tier log recovery of build_website (lines 460-533): first
q_output.log (doctype match, then fenced html blocks), then — only when
nothing was found — q_explicit_output.log (doctype match, then the
diff-style reconstruction).  When q_output.log does not exist, the
second tier dies on the undefined html_pattern name (a NameError the
handler catches) and contributes nothing. -/
def recoverHtml (fs : Fs) (absDir : String) : Option String :=
  let qlog := fs.read? (absDir ++ "/q_output.log")
  let h1 : Option String :=
    match qlog with
    | some content =>
      match doctypeSearch content.data with
      | some h => some h
      | none =>
        (findHtmlCodeBlocks (content.length + 1) content.data).find?
          (fun m => strIn "<!DOCTYPE html>" m || strIn "<html" m)
    | none => none
  match h1 with
  | some h => some h
  | none =>
    match fs.read? (absDir ++ "/q_explicit_output.log") with
    | some ex =>
      if qlog.isSome then
        match doctypeSearch ex.data with
        | some h => some h
        | none =>
          let ls := formattedHtmlLines ex
          if ¬ ls.isEmpty then some (joinStr "\n" ls) else none
      else none
    | none => none

/-! ### build_website -/

/-- Whether the caller-provided project directory is reused (it must be
given and exist), otherwise a fresh timestamped directory is created. -/
def usesExistingDir (fs : Fs) (cwd : String) (projectDir : Option String) : Bool :=
  match projectDir with
  | some d => fs.exists' (resolvePath cwd d)
  | none => false

/-- The absolute project directory build_website works in. -/
def websiteProjectDir (fs : Fs) (cwd : String) (projectDir : Option String) (timestamp : Nat) :
    String :=
  match projectDir with
  | some d =>
    if fs.exists' (resolvePath cwd d) then resolvePath cwd d
    else resolvePath cwd ("./web_project_" ++ toString timestamp)
  | none => resolvePath cwd ("./web_project_" ++ toString timestamp)

/-- The tool phase shared by both builders: either the direct q chat
run (whose captured output the Python code saves to q_output.log) or,
after an exception, the fallback script (which tees its own log). -/
def toolPhase (env : BuildEnv) (w : WState) (absDir : String) (scriptContent : String) :
    ToolRun × WState :=
  match env.directOutcome with
  | .ok r =>
    let w := (env.directEffect w.1, w.2)
    let w := wwrite w (absDir ++ "/q_output.log") r.stdout
    (r, w)
  | .error _ =>
    let w := wwrite w (absDir ++ "/run_q.sh") scriptContent
    let w := (env.scriptEffect w.1, w.2)
    (env.scriptRun, w)

/-- Setup and tool run of build_website: directory choice, prompt and
requirements files, then the tool phase. -/
def websiteSetupAndTool (env : BuildEnv) (fs : Fs) (cwd : String) (requirements : String)
    (projectDir : Option String) (timestamp : Nat) : ToolRun × WState × String :=
  let absDir := websiteProjectDir fs cwd projectDir timestamp
  let fs0 := if usesExistingDir fs cwd projectDir then fs else fs.makedirs absDir
  let w := wwrite (fs0, []) (absDir ++ "/prompt.txt") (websitePrompt requirements)
  let w := wwrite w (absDir ++ "/requirements.txt") requirements
  let (run, w) := toolPhase env w absDir websiteRunScript
  (run, w, absDir)

/-- The three-tier content-recovery cascade over the checked project
directory: extracted log content, else the synthesised minimal page;
returns the html file list, the index content, and the state. -/
def websiteCascade (w : WState) (absDir requirements : String) (htmlFiles0 : List String) :
    List String × String × WState :=
  if htmlFiles0.isEmpty then
    match recoverHtml w.1 absDir with
    | some h =>
      let w := wwrite w (absDir ++ "/index.html") h
      (["index.html"], h, w)
    | none =>
      let mh := minimalHtml (displayTextOf requirements)
      let w := wwrite w (absDir ++ "/index.html") mh
      (["index.html"], mh, w)
  else
    let content :=
      match w.1.read? (absDir ++ "/" ++ htmlFiles0.headD "") with
      | some c => c
      | none => "No HTML content found"
    (htmlFiles0, content, w)

/-- The directory into which build_website changes is an actual
directory (os.chdir succeeds); always true for a fresh directory. -/
def websiteDirOk (fs : Fs) (cwd : String) (projectDir : Option String) (timestamp : Nat) : Bool :=
  (if usesExistingDir fs cwd projectDir then fs
   else fs.makedirs (websiteProjectDir fs cwd projectDir timestamp)).isDir
    (websiteProjectDir fs cwd projectDir timestamp)

/-- What build_website produced: its returned dict (success,
project_dir, files, index_content, html_files, q_response or the
failure message) together with the final file system, working
directory, and the writes the Python code performed. -/
structure BuildResult where
  success : Bool
  project_dir : String
  files : String
  index_content : String
  html_files : List String
  q_response : String
  message : String
  fs : Fs
  cwd : String
  writes : List (String × String)

/-- QAgent.build_website (q_agent.py lines 250-641). -/
def build_website (env : BuildEnv) (fs : Fs) (cwd : String) (requirements : String)
    (projectDir : Option String) (timestamp : Nat) : BuildResult :=
  if ¬ env.qAvailable then
    { success := false, project_dir := "", files := "", index_content := "",
      html_files := [], q_response := "",
      message := "Amazon Q CLI is not installed or not in PATH. Please install it following the instructions from the AWS documentation.",
      fs := fs, cwd := cwd, writes := [] }
  else
    let absDir := websiteProjectDir fs cwd projectDir timestamp
    let fs0 := if usesExistingDir fs cwd projectDir then fs else fs.makedirs absDir
    if ¬ fs0.isDir absDir then
      -- os.chdir raises; the handler restores the directory and
      -- reports the failure.
      { success := false, project_dir := absDir, files := "", index_content := "",
        html_files := [], q_response := "",
        message := "Error building website: NotADirectoryError",
        fs := fs0, cwd := cwd, writes := [] }
    else
      let (run, w, absDir) := websiteSetupAndTool env fs cwd requirements projectDir timestamp
      let htmlFiles0 := (Fs.listFiles w.1 absDir).filter (fun f => endsWith f ".html")
      let (htmlFiles, indexContent, w) := websiteCascade w absDir requirements htmlFiles0
      if run.returncode = 0 ∨ ¬ htmlFiles.isEmpty then
        { success := true, project_dir := absDir, files := env.lsOutput,
          index_content := indexContent, html_files := htmlFiles,
          q_response := run.stdout, message := "",
          fs := w.1, cwd := cwd, writes := w.2 }
      else
        { success := false, project_dir := absDir, files := env.lsOutput,
          index_content := indexContent, html_files := htmlFiles, q_response := "",
          message := "Failed to generate website: Unknown error",
          fs := w.1, cwd := cwd, writes := w.2 }

/-! ### build_app -/

/-- Python str.capitalize. -/
def pyCapitalize (s : String) : String :=
  match s.data with
  | [] => ""
  | c :: tl => String.mk (c.toUpper :: lowerChars tl)

/-- The database-cue test selecting the database-aware web prompt
(line 821): database, db, data, postgres or todo in the requirements. -/
def appPromptDbCond (requirements : String) : Bool :=
  strIn "database" (pyLower requirements) || strIn "db" (pyLower requirements) ||
  strIn "data" (pyLower requirements) || strIn "postgres" (pyLower requirements) ||
  strIn "todo" (pyLower requirements)

/-- The database-cue test selecting the database section of the default
README (line 1057): database, db, postgres or todo. -/
def readmeDbCond (requirements : String) : Bool :=
  strIn "database" (pyLower requirements) || strIn "db" (pyLower requirements) ||
  strIn "postgres" (pyLower requirements) || strIn "todo" (pyLower requirements)

/-- The common permission preamble of every build_app prompt. -/
def appPromptHead : String :=
  "\n\nIMPORTANT:\n1. Please use /tools trust fs_write to get permission to write files\n2. You MUST create all necessary files to implement this request\n3. Please use the fs_write tool to SAVE your implementation in the current directory\n4. You have full permission to write files here - make sure to use the fs_write tool\n\n"

/-- The prompt build_app selects (lines 819-908). -/
def appPrompt (requirements appType : String) : String :=
  if appType = "web" then
    if appPromptDbCond requirements then
      "I want to build a web application with these requirements: " ++ requirements ++
      appPromptHead ++
      "For this web application with DATABASE:\n1. Create a complete, working Node.js application with Express server\n2. Include ALL files needed for a fully functional app that stores data in a database\n3. Create a comprehensive .env.example file with all required database parameters:\n   - DB_HOST=localhost\n   - DB_PORT=5432\n   - DB_NAME=your_db_name  \n   - DB_USER=your_username\n   - DB_PASSWORD=your_password\n   - PORT=3000\n4. Set up proper database connection handling in your code with these features:\n   - Connection retries and error handling\n   - Use environment variables for all database configuration\n   - Proper connection pool management\n   - Add support for demo mode with DB_DEMO_MODE=true environment variable\n5. IMPORTANT: Add a fallback mechanism to use in-memory storage when DB_DEMO_MODE=true\n   - Create sample seed data for the application domain\n   - Ensure all database operations work in both real DB and demo modes\n6. Create a detailed README.md with these sections:\n   - Installation instructions\n   - Database setup steps with exact commands\n   - Environment configuration guide\n   - Running the application locally\n7. The server.js file MUST use process.env.PORT || 3000 for port configuration\n8. Include a package.json with all dependencies clearly defined\n9. Design the app to be runnable with \"npm install\" and \"npm start\"\n10. For Todo apps, include:\n    - Task creation, editing, deletion, and completion toggle\n    - Proper error handling\n    - API endpoints and frontend integration\n\nCreate all necessary files including frontend (HTML, CSS, JavaScript), and backend code.\nFocus on creating a complete, production-ready solution with proper error handling.\nMAKE SURE THE APP CAN BE RUN IMMEDIATELY AFTER SETUP."
    else
      "I want to build a web application with these requirements: " ++ requirements ++
      appPromptHead ++
      "For this web application:\n1. Create a complete, working Node.js application with Express server\n2. Set up the server.js file to use process.env.PORT || 3000 for easier deployment\n3. Use proper error handling\n4. All file paths should be relative to the project root\n5. Include package.json with all dependencies clearly defined\n6. Design the app to be runnable with \"npm start\"\n\nCreate all necessary files including HTML, CSS, JavaScript, and any backend code needed.\nMake sure the app is ready to run with just \x27npm install\x27 and \x27npm start\x27.\nInclude a comprehensive README.md with usage instructions.\nYour priority is to create a complete, functional solution."
  else if appType = "cli" then
    "I want to build a command line application with these requirements: " ++ requirements ++
    appPromptHead ++
    "Create all necessary files in Python.\nMake it simple but functional.\nInclude a README.md with instructions on how to run the application."
  else
    "I want to build a " ++ appType ++ " application with these requirements: " ++ requirements ++
    appPromptHead ++
    "Create all necessary files.\nMake it simple but functional.\nInclude a README.md with instructions on how to run the application."

/-- The fallback bash script build_app writes to run_q.sh (lines
980-1008; unlike the website variant it has no explicit-permission
retry). -/
def appRunScript : String :=
  "#!/bin/bash\ncd \"$PWD\"\n\n# Set up permissions\necho \"[INFO] Setting up Q CLI tool permissions...\"\necho \"/tools trust fs_write\" | q chat --trust-all-tools\necho \"/tools trust fs_read\" | q chat --trust-all-tools\necho \"/tools trustall\" | q chat --trust-all-tools\n\n# Add a sleep to make sure permissions take effect\nsleep 1\n\n# Verify permissions\necho \"[INFO] Verifying Q CLI permissions...\"\necho \"/tools\" | q chat --trust-all-tools\n\n# Run Q CLI with the prompt file\necho \"\"\necho \"[INFO] Running Q CLI with the provided prompt...\"\necho \"This may take a few minutes. You\x27ll see progress below:\"\necho \"==================================================\"\ncat prompt.txt | q chat --trust-all-tools 2>&1 | tee q_output.log\necho \"==================================================\"\necho \"[INFO] Q CLI execution completed with result code $?\"\n\n# List created files\necho \"[INFO] Files created:\"\nls -la\n"

/-- The database section of the default README. -/
def readmeDbSection : String :=
  "\n## Database Setup\n\nThis application requires a PostgreSQL database.\n\n1. Create a database:\n\x60\x60\x60sql\nCREATE DATABASE app_db;\n\x60\x60\x60\n\n2. Configure the connection in the .env file:\n\x60\x60\x60\nDB_HOST=localhost\nDB_PORT=5432\nDB_NAME=app_db\nDB_USER=postgres\nDB_PASSWORD=your_password\n\x60\x60\x60\n\n3. Create the necessary tables (you may need to adjust based on the app):\n\x60\x60\x60sql\nCREATE TABLE IF NOT EXISTS todos (\n  id SERIAL PRIMARY KEY,\n  text VARCHAR(255) NOT NULL,\n  completed BOOLEAN DEFAULT FALSE,\n  created_at TIMESTAMP DEFAULT CURRENT_TIMESTAMP\n);\n\x60\x60\x60\n\n"

/-- The minimal README build_app synthesises when the tool produced
none (lines 1048-1090). -/
def defaultReadme (appType requirements lsOutput : String) : String :=
  "# " ++ pyCapitalize appType ++ " Application\n\n" ++
  "This application was built based on these requirements: " ++ requirements ++ "\n\n" ++
  "## Files\n\n\x60\x60\x60\n" ++ lsOutput ++ "\x60\x60\x60\n" ++
  (if appType = "web" ∧ readmeDbCond requirements then readmeDbSection else "") ++
  "\n## Setup\n\n\x60\x60\x60bash\nnpm install\n\x60\x60\x60\n\n## Running\n\n\x60\x60\x60bash\nnpm start\n\x60\x60\x60\n"

/-- The absolute project directory build_app works in. -/
def appProjectDir (fs : Fs) (cwd : String) (projectDir : Option String) (timestamp : Nat)
    (appType : String) : String :=
  match projectDir with
  | some d =>
    if fs.exists' (resolvePath cwd d) then resolvePath cwd d
    else resolvePath cwd ("./app_project_" ++ toString timestamp ++ "_" ++ appType)
  | none => resolvePath cwd ("./app_project_" ++ toString timestamp ++ "_" ++ appType)

/-- Setup and tool run of build_app. -/
def appSetupAndTool (env : BuildEnv) (fs : Fs) (cwd : String) (requirements appType : String)
    (projectDir : Option String) (timestamp : Nat) : ToolRun × WState × String :=
  let absDir := appProjectDir fs cwd projectDir timestamp appType
  let fs0 := if usesExistingDir fs cwd projectDir then fs else fs.makedirs absDir
  let w := wwrite (fs0, []) (absDir ++ "/prompt.txt") (appPrompt requirements appType)
  let w := wwrite w (absDir ++ "/requirements.txt") requirements
  let (run, w) := toolPhase env w absDir appRunScript
  (run, w, absDir)

/-- The directory into which build_app changes is an actual directory. -/
def appDirOk (fs : Fs) (cwd : String) (projectDir : Option String) (timestamp : Nat)
    (appType : String) : Bool :=
  (if usesExistingDir fs cwd projectDir then fs
   else fs.makedirs (appProjectDir fs cwd projectDir timestamp appType)).isDir
    (appProjectDir fs cwd projectDir timestamp appType)

/-- The README recovery of build_app: the existing README is read, or a
minimal one is synthesised and written; returns the instructions text
and the state. -/
def appReadmeStep (env : BuildEnv) (w : WState) (absDir requirements appType : String) :
    String × WState :=
  match w.1.read? (absDir ++ "/README.md") with
  | some c => (c, w)
  | none =>
    let msg := "No README.md found. This is a " ++ appType ++ " application built from: " ++
      requirements
    let w := wwrite w (absDir ++ "/README.md") (defaultReadme appType requirements env.lsOutput)
    (msg, w)

/-- What build_app produced (mirrors BuildResult with instructions in
place of the website fields). -/
structure AppBuildResult where
  success : Bool
  project_dir : String
  files : String
  instructions : String
  q_response : String
  message : String
  fs : Fs
  cwd : String
  writes : List (String × String)

/-- QAgent.build_app (q_agent.py lines 776-1120). -/
def build_app (env : BuildEnv) (fs : Fs) (cwd : String) (requirements appType : String)
    (projectDir : Option String) (timestamp : Nat) : AppBuildResult :=
  if ¬ env.qAvailable then
    { success := false, project_dir := "", files := "", instructions := "",
      q_response := "",
      message := "Amazon Q CLI is not installed or not in PATH. Please install it following the instructions from the AWS documentation.",
      fs := fs, cwd := cwd, writes := [] }
  else
    let absDir := appProjectDir fs cwd projectDir timestamp appType
    let fs0 := if usesExistingDir fs cwd projectDir then fs else fs.makedirs absDir
    if ¬ fs0.isDir absDir then
      { success := false, project_dir := absDir, files := "", instructions := "",
        q_response := "", message := "Error building app: NotADirectoryError",
        fs := fs0, cwd := cwd, writes := [] }
    else
      let (run, w, absDir) := appSetupAndTool env fs cwd requirements appType projectDir timestamp
      let (instructions, w) := appReadmeStep env w absDir requirements appType
      if run.returncode = 0 ∨ Fs.exists' w.1 (absDir ++ "/README.md") then
        { success := true, project_dir := absDir, files := env.lsOutput,
          instructions := instructions, q_response := run.stdout, message := "",
          fs := w.1, cwd := cwd, writes := w.2 }
      else
        { success := false, project_dir := absDir, files := env.lsOutput,
          instructions := instructions, q_response := "",
          message := "Failed to generate app: Unknown error",
          fs := w.1, cwd := cwd, writes := w.2 }

end QAgent

/-! ## main.py: consolidated static-site deployment -/

namespace Deploy

/-- Result of one _run_terraform_command invocation. -/
structure TfCmd where
  returncode : Int
  stdoutS : String
  stderrS : String
deriving Repr

/-- Oracle for one deploy_consolidated_website call: the terraform
init/apply/targeted-retry/output invocations, the external file-system
effects of the applies (notably creating terraform.tfstate), and the
exit codes of successive aws s3 sync attempts. -/
structure DeployEnv where
  initRes : TfCmd
  applyRes : TfCmd
  applyFx : Fs → Fs
  applyRetryRes : TfCmd
  applyRetryFx : Fs → Fs
  outputRes : TfCmd
  uploadResults : List Int

/-- The website-configuration dictionary handed to the deployer
(assembled by extract_website_details plus caller additions); optional
fields model keys that may be absent. -/
structure ConsolidatedConfig where
  bucket_name : String
  main_bucket_name : Option String
  folder_name : Option String
  environment : Option String
  domain_name : Option String
  zone_id : Option String
  price_class : Option String
  region : Option String
  project_id : Option String
  content_dir : Option String
deriving Repr

/-- WebsiteDeploymentOrchestrator.terraform_base_dir. -/
def terraformBaseDir : String := "./terraform_deployments"

/-- The main.tf text _generate_consolidated_website_config writes
(main.py lines 1305-1388); folders is embedded as json.dumps(folders). -/
def consolidatedMainTf (mainBucket : String) (cfg : ConsolidatedConfig) (folders : List String)
    (timestamp : Nat) (timeStr : String) : String :=
  "\nmodule \"consolidated_website\" \x7b\n  source = \"../../modules/aws_s3_cloudfront_consolidated\"\n\n  bucket_name         = \"" ++ mainBucket ++
  "\"\n  environment         = \"" ++ cfg.environment.getD "dev" ++
  "\"\n  default_root_object = \"index.html\"\n  error_document      = \"error.html\"\n  domain_name         = " ++
  (match cfg.domain_name with
   | some d => "\"" ++ d ++ "\""
   | none => "null") ++
  "\n  zone_id             = " ++
  (match cfg.zone_id with
   | some z => "\"" ++ z ++ "\""
   | none => "null") ++
  "\n  website_folders     = " ++ jsonDumpStrList folders ++
  "\n  price_class         = \"" ++ cfg.price_class.getD "PriceClass_100" ++
  "\"\n  region              = \"" ++ cfg.region.getD "us-east-1" ++
  "\"\n  project_id          = \"" ++ cfg.project_id.getD ("agentx-project-" ++ toString timestamp) ++
  "\"\n  tags                = \x7b\n    \"Provisioned\" = \"AgentX\"\n    \"Description\" = \"Consolidated static website hosting\"\n    \"CreatedAt\"   = \"" ++ timeStr ++
  "\"\n  \x7d\n\x7d\n\n# Use a consistent IAM user name for all consolidated deployments\nlocals \x7b\n  iam_user_name = \"agentx-website-deployer\"\n\x7d\n\n# Create IAM user for website content management (with handling for existing user)\nresource \"aws_iam_user\" \"website_deployer\" \x7b\n  name = local.iam_user_name\n  path = \"/system/\"\n\n  tags = \x7b\n    Name = local.iam_user_name\n    Provisioned = \"AgentX\"\n  \x7d\n\n  # Prevent errors if the user already exists\n  lifecycle \x7b\n    ignore_changes = [tags]\n  \x7d\n\x7d\n\n# Create access key for the IAM user (only if not already exists)\nresource \"aws_iam_access_key\" \"website_deployer\" \x7b\n  user = aws_iam_user.website_deployer.name\n\n  # This prevents the access key from being recreated on subsequent runs\n  lifecycle \x7b\n    ignore_changes = all\n  \x7d\n\x7d\n\n# Create policy for the IAM user to manage the S3 bucket\nresource \"aws_iam_user_policy\" \"website_deployer_policy\" \x7b\n  name = \"website-deployer-policy-" ++ mainBucket ++
  "\"\n  user = aws_iam_user.website_deployer.name\n\n  policy = jsonencode(\x7b\n    Version = \"2012-10-17\"\n    Statement = [\n      \x7b\n        Action = [\n          \"s3:PutObject\",\n          \"s3:GetObject\",\n          \"s3:DeleteObject\",\n          \"s3:ListBucket\"\n        ]\n        Effect   = \"Allow\"\n        Resource = [\n          module.consolidated_website.website_bucket_arn,\n          \"$\x7bmodule.consolidated_website.website_bucket_arn\x7d/*\"\n        ]\n      \x7d,\n      \x7b\n        Action = [\n          \"cloudfront:CreateInvalidation\"\n        ]\n        Effect   = \"Allow\"\n        Resource = module.consolidated_website.cloudfront_distribution_arn\n      \x7d\n    ]\n  \x7d)\n\x7d\n"

/-- The outputs.tf text (lines 1391-1428). -/
def consolidatedOutputsTf : String :=
  "\noutput \"website_bucket_name\" \x7b\n  description = \"Name of the S3 bucket hosting the websites\"\n  value       = module.consolidated_website.website_bucket_name\n\x7d\n\noutput \"cloudfront_distribution_id\" \x7b\n  description = \"The identifier for the CloudFront distribution\"\n  value       = module.consolidated_website.cloudfront_distribution_id\n\x7d\n\noutput \"cloudfront_domain\" \x7b\n  description = \"The domain name of the CloudFront distribution\"\n  value       = module.consolidated_website.cloudfront_distribution_domain_name\n\x7d\n\noutput \"custom_domain_url\" \x7b\n  description = \"Custom domain URL (if configured)\"\n  value       = module.consolidated_website.custom_domain_url\n\x7d\n\noutput \"website_deployer_user\" \x7b\n  description = \"IAM user name for website content management\"\n  value       = aws_iam_user.website_deployer.name\n\x7d\n\noutput \"website_deployer_access_key\" \x7b\n  description = \"Access key ID for the website deployer IAM user\"\n  value       = aws_iam_access_key.website_deployer.id\n  sensitive   = true\n\x7d\n\noutput \"website_deployer_secret_key\" \x7b\n  description = \"Secret access key for the website deployer IAM user\"\n  value       = aws_iam_access_key.website_deployer.secret\n  sensitive   = true\n\x7d\n"

/-- The per-folder sample index page (lines 1443-1481). -/
def sampleIndexHtml (folder : String) : String :=
  "\n<!DOCTYPE html>\n<html lang=\"en\">\n<head>\n  <meta charset=\"UTF-8\">\n  <meta name=\"viewport\" content=\"width=device-width, initial-scale=1.0\">\n  <title>" ++ folder ++
  " - AgentX Deployed</title>\n  <style>\n    body \x7b\n      font-family: Arial, sans-serif;\n      margin: 0;\n      padding: 0;\n      display: flex;\n      justify-content: center;\n      align-items: center;\n      height: 100vh;\n      background: linear-gradient(135deg, #6e8efb, #a777e3);\n      color: white;\n    \x7d\n    .container \x7b\n      text-align: center;\n      padding: 2rem;\n      background-color: rgba(255, 255, 255, 0.1);\n      border-radius: 10px;\n      box-shadow: 0 4px 6px rgba(0, 0, 0, 0.1);\n    \x7d\n    h1 \x7b\n      margin-bottom: 1rem;\n    \x7d\n  </style>\n</head>\n<body>\n  <div class=\"container\">\n    <h1>Welcome to " ++ folder ++
  "!</h1>\n    <p>Successfully deployed with AgentX using AWS S3 and CloudFront.</p>\n  </div>\n</body>\n</html>\n                "

/-- The sample error page (lines 1484-1527). -/
def sampleErrorHtml : String :=
  "\n<!DOCTYPE html>\n<html lang=\"en\">\n<head>\n  <meta charset=\"UTF-8\">\n  <meta name=\"viewport\" content=\"width=device-width, initial-scale=1.0\">\n  <title>Error - Page Not Found</title>\n  <style>\n    .container \x7b\n      text-align: center;\n      max-width: 600px;\n    \x7d\n    \n    h1 \x7b\n      color: #e74c3c;\n    \x7d\n    \n    .back-link \x7b\n      display: inline-block;\n      margin-top: 1.5rem;\n      padding: 0.75rem 1.5rem;\n      background-color: #3498db;\n      color: white;\n      text-decoration: none;\n      border-radius: 5px;\n      font-weight: 500;\n      transition: background-color 0.3s ease;\n    \x7d\n    \n    .back-link:hover \x7b\n      background-color: #2980b9;\n    \x7d\n  </style>\n</head>\n<body>\n  <div class=\"container\">\n    <h1>404 - Page Not Found</h1>\n    <p>The page you are looking for doesn\x27t exist or has been moved.</p>\n    <a href=\"/\" class=\"back-link\">Return to Homepage</a>\n  </div>\n</body>\n</html>\n            "

/-- main.OrchestratorAgent._generate_consolidated_website_config
(lines 1297-1527): assembles the folder list from initial_folders plus
an add_folder not already present — it never reads back the folders of
an existing configuration — and writes main.tf, outputs.tf and the
sample content tree. -/
def generate_consolidated_website_config (fs : Fs) (deploymentDir mainBucket : String)
    (cfg : ConsolidatedConfig) (initialFolders : Option (List String)) (addFolder : Option String)
    (timestamp : Nat) (timeStr : String) : Fs :=
  let folders := initialFolders.getD []
  let folders :=
    match addFolder with
    | some f => if ¬ folders.contains f then folders ++ [f] else folders
    | none => folders
  let fs := fs.write (deploymentDir ++ "/main.tf")
    (consolidatedMainTf mainBucket cfg folders timestamp timeStr)
  let fs := fs.write (deploymentDir ++ "/outputs.tf") consolidatedOutputsTf
  let fs := folders.foldl
    (fun fs folder =>
      let fs := fs.makedirs (deploymentDir ++ "/sample_content/" ++ folder)
      fs.write (deploymentDir ++ "/sample_content/" ++ folder ++ "/index.html")
        (sampleIndexHtml folder))
    fs
  fs.write (deploymentDir ++ "/sample_content/error.html") sampleErrorHtml

/-- Python str() of a JSON value, for the f-string interpolations. -/
def pyStr (v : JVal) : String :=
  match v with
  | .jstr s => s
  | .jnum n => toString n
  | .jbool b => if b then "True" else "False"
  | .jnull => "None"
  | .jarr _ => "[...]"
  | .jobj _ => "\x7b...\x7d"

/-- The deployment instructions template (lines 1529-1546). -/
def consolidatedInstructions (bucketName folderName cloudfrontId cloudfrontDomain region :
    String) : String :=
  "\nYour website is accessible at:\nhttps://" ++ cloudfrontDomain ++ "/" ++ folderName ++
  "/index.html\n\nTo deploy content updates to your static website:\n\n1. Set up AWS CLI credentials for the deployment user:\n   aws configure --profile agentx-website-deployer\n   # When prompted, enter the access key and secret key from the Terraform outputs\n\n2. Upload website content to your folder:\n   aws s3 sync ./my-website/ s3://" ++ bucketName ++ "/" ++ folderName ++
  "/ --profile agentx-website-deployer\n\n3. Invalidate CloudFront cache for your folder:\n   aws cloudfront create-invalidation --distribution-id " ++ cloudfrontId ++
  " --paths \"/" ++ folderName ++ "/*\" --region " ++ region ++ "\n        "

/-- The dictionary deploy_consolidated_website returns on success. -/
structure ConsolidatedResult where
  success : Bool
  website_url : String
  custom_domain_url : String
  s3_bucket : String
  cloudfront_distribution : String
  deployment_instructions : String
  deployment_dir : String
  error : String
deriving Repr

/-- Navigation outputs.get(k, {}).get("value", default) over the parsed
terraform outputs, raising AttributeError on non-dict values exactly
where Python would. -/
def outputsValue (outputs : JVal) (k : String) (d : JVal) : Except PyErr JVal := do
  let inner ← JVal.getAttrDefault outputs k (.jobj [])
  JVal.getAttrDefault inner "value" d

/-- main.OrchestratorAgent.deploy_consolidated_website (lines
1116-1295): shared consolidated directory, config generation (update
path when a terraform.tfstate exists), init, apply with the IAM-race
targeted retry, output parsing, the bounded upload-retry loop, and the
result record.  The function itself has no exception handler: a JSON
parse failure of the outputs or a non-dict outputs value outside the
upload try block propagates to the caller (.error). -/
def deploy_consolidated_website (env : DeployEnv) (fs : Fs) (cwd : String)
    (cfg : ConsolidatedConfig) (timestamp : Nat) (timeStr : String) :
    Except PyErr ConsolidatedResult × Fs :=
  let deploymentDir := resolvePath cwd (pathJoin terraformBaseDir "consolidated")
  let fs := fs.makedirs deploymentDir
  let mainBucket := cfg.main_bucket_name.getD ("agentx-websites-" ++ toString timestamp)
  let folderName := cfg.folder_name.getD cfg.bucket_name
  let fs :=
    if fs.exists' (deploymentDir ++ "/terraform.tfstate") then
      generate_consolidated_website_config fs deploymentDir mainBucket cfg none (some folderName)
        timestamp timeStr
    else
      generate_consolidated_website_config fs deploymentDir mainBucket cfg (some [folderName]) none
        timestamp timeStr
  if env.initRes.returncode ≠ 0 then
    (.ok { success := false, website_url := "", custom_domain_url := "", s3_bucket := "",
           cloudfront_distribution := "", deployment_instructions := "",
           deployment_dir := "",
           error := "Terraform initialization failed: " ++ env.initRes.stderrS }, fs)
  else
    let fs := env.applyFx fs
    let applyFailed : Option String :=
      if env.applyRes.returncode ≠ 0 then
        if strIn "NoSuchEntity: The user with name" env.applyRes.stderrS ∧
            strIn "cannot be found" env.applyRes.stderrS then
          if env.applyRetryRes.returncode ≠ 0 then
            some ("Terraform apply failed even with targeted approach: " ++
              env.applyRetryRes.stderrS)
          else none
        else some ("Terraform apply failed: " ++ env.applyRes.stderrS)
      else none
    let fs :=
      if env.applyRes.returncode ≠ 0 ∧
          strIn "NoSuchEntity: The user with name" env.applyRes.stderrS ∧
          strIn "cannot be found" env.applyRes.stderrS then
        env.applyRetryFx fs
      else fs
    match applyFailed with
    | some msg =>
      (.ok { success := false, website_url := "", custom_domain_url := "", s3_bucket := "",
             cloudfront_distribution := "", deployment_instructions := "",
             deployment_dir := "", error := msg }, fs)
    | none =>
      let outputsE : Except PyErr JVal :=
        if env.outputRes.returncode = 0 then
          match jsonLoads env.outputRes.stdoutS with
          | some v => .ok v
          | none => .error (.exc "json.JSONDecodeError")
        else .ok (.jobj [])
      match outputsE with
      | .error e => (.error e, fs)
      | .ok outputs =>
        -- The upload section (lines 1206-1270) is wrapped in its own
        -- try/except and performs no local file-system change; its
        -- external aws calls are driven by env.uploadResults.
        match (do
          let bucketV ← outputsValue outputs "website_bucket_name" (.jstr mainBucket)
          let domainV ← outputsValue outputs "cloudfront_domain" (.jstr "")
          let customV ← outputsValue outputs "custom_domain_url" (.jstr "")
          let cfIdV ← outputsValue outputs "cloudfront_distribution_id" (.jstr "")
          pure (bucketV, domainV, customV, cfIdV) : Except PyErr (JVal × JVal × JVal × JVal)) with
        | .error e => (.error e, fs)
        | .ok (bucketV, domainV, customV, cfIdV) =>
          let actualBucket := pyStr bucketV
          let cloudfrontDomain := pyStr domainV
          let websiteUrl := cloudfrontDomain ++ "/" ++ folderName ++ "/"
          (.ok { success := true, website_url := websiteUrl,
                 custom_domain_url := pyStr customV, s3_bucket := actualBucket,
                 cloudfront_distribution := pyStr cfIdV,
                 deployment_instructions := consolidatedInstructions actualBucket folderName
                   (pyStr cfIdV) cloudfrontDomain (cfg.region.getD "us-east-1"),
                 deployment_dir := deploymentDir, error := "" }, fs)

/-- An empty working area for the two-deployment scenario. -/
def fsC4 : Fs := { files := [], dirs := ["/app"] }

/-- First deployment request: folder site1. -/
def cfgC4a : ConsolidatedConfig :=
  { bucket_name := "b1", main_bucket_name := some "agentx-sites", folder_name := some "site1",
    environment := none, domain_name := none, zone_id := none, price_class := none,
    region := none, project_id := some "proj", content_dir := none }

/-- Second deployment request: folder site2. -/
def cfgC4b : ConsolidatedConfig := { cfgC4a with bucket_name := "b2", folder_name := some "site2" }

/-- External outcomes: init, apply and output succeed; the apply
creates the consolidated terraform.tfstate. -/
def envC4 : DeployEnv :=
  { initRes := ⟨0, "", ""⟩, applyRes := ⟨0, "", ""⟩,
    applyFx := fun fs => fs.write "/app/terraform_deployments/consolidated/terraform.tfstate" "\x7b\x7d",
    applyRetryRes := ⟨0, "", ""⟩, applyRetryFx := id,
    outputRes := ⟨0, "\x7b\x7d", ""⟩, uploadResults := [] }

set_option maxRecDepth 8000 in
set_option maxHeartbeats 2000000 in
/-- C4: deploying site1 and then site2 with no prior consolidated
state uses the single shared consolidated deployment directory on both
calls — but after the second call the generated configuration lists
only site2 in website_folders: the update path passes only add_folder
to the generator, which starts from an empty list and never reads back
the folders already configured, so the first folder name appears
nowhere in the regenerated main.tf. -/
theorem C4_update_drops_previous_folder :
    ((deploy_consolidated_website envC4 fsC4 "/app" cfgC4a 100 "t1").1.toOption.map
        ConsolidatedResult.deployment_dir) = some "/app/terraform_deployments/consolidated" ∧
    ((deploy_consolidated_website envC4
        (deploy_consolidated_website envC4 fsC4 "/app" cfgC4a 100 "t1").2
        "/app" cfgC4b 200 "t2").1.toOption.map ConsolidatedResult.deployment_dir) =
      some "/app/terraform_deployments/consolidated" ∧
    ((deploy_consolidated_website envC4
        (deploy_consolidated_website envC4 fsC4 "/app" cfgC4a 100 "t1").2
        "/app" cfgC4b 200 "t2").2.read? "/app/terraform_deployments/consolidated/main.tf") =
      some (consolidatedMainTf "agentx-sites" cfgC4b ["site2"] 200 "t2") ∧
    strIn "site1" (consolidatedMainTf "agentx-sites" cfgC4b ["site2"] 200 "t2") = false ∧
    strIn "\"site2\"" (consolidatedMainTf "agentx-sites" cfgC4b ["site2"] 200 "t2") = true := by
  refine ⟨rfl, rfl, rfl, ?_, ?_⟩
  · simp only [strIn, consolidatedMainTf, strData_append, List.append_assoc]
    repeat (refine containsSub_split_false _ _ _ _ (by decide) ?_)
    decide
  · simp only [strIn, consolidatedMainTf, strData_append, List.append_assoc]
    repeat (first
      | exact containsSub_extend _ _ _ (by decide)
      | apply containsSub_skip)

end Deploy

/-! ## main.py: request classifier -/

namespace Orchestrator

/-- The fixed fallback classification of main.analyze_request_with_llm. -/
def defaultClassification : JVal :=
  .jobj [("type", .jstr "conversation"), ("action", .jstr "chat")]

/-- main.OrchestratorAgent.analyze_request_with_llm (lines 120-147).
The oracle argument is the outcome of the anthropic call together with
response.content[0].text extraction: .error covers any exception raised
there (call failure, empty content list).  The source strips the text,
parses it with json.loads, and returns the parsed value unchanged; a
json.JSONDecodeError or a call exception yields the fixed default.  The
function is total: no exception escapes to the caller. -/
def analyze_request_with_llm (callOutcome : Except PyErr String) : JVal :=
  match callOutcome with
  | .error _ => defaultClassification
  | .ok text =>
    match jsonLoads (pyStrip text) with
    | some v => v
    | none => defaultClassification

/-- First hit of f over a list, mirroring a Python for loop whose body
returns on a match and otherwise falls through to the next element. -/
def firstSome {α β : Type} (f : α → Option β) : List α → Option β
  | [] => none
  | x :: xs =>
    match f x with
    | some r => some r
    | none => firstSome f xs

/-- Python x in container for JSON values (dict key test, list
membership, substring test; TypeError otherwise). -/
def pyIn (needle container : JVal) : Except PyErr Bool :=
  match container with
  | .jobj kvs =>
    match needle with
    | .jstr k => .ok (kvs.any (fun e => e.1 = k))
    | _ => .ok false
  | .jarr xs => .ok (xs.any (fun x => JVal.jeq x needle))
  | .jstr s =>
    match needle with
    | .jstr t => .ok (strIn t s)
    | _ => .error (.typeError "in requires string as left operand")
  | _ => .error (.typeError "argument of type is not iterable")

/-- Python int() on a JSON value: identity on numbers, digit parse on
strings, 0/1 on booleans, TypeError otherwise. -/
def pyInt (v : JVal) : Except PyErr Int :=
  match v with
  | .jnum n => .ok n
  | .jbool b => .ok (if b then 1 else 0)
  | .jstr s =>
    let cs := stripChars s.data
    match cs with
    | '-' :: rest =>
      if ¬ rest.isEmpty ∧ rest.all Char.isDigit then .ok (-(digitsVal rest : Int))
      else .error (.exc "invalid literal for int")
    | _ =>
      if ¬ cs.isEmpty ∧ cs.all Char.isDigit then .ok (digitsVal cs : Int)
      else .error (.exc "invalid literal for int")
  | _ => .error (.typeError "int() argument")

/-- Expect a JSON string (re.search on a non-string raises TypeError). -/
def asStr (v : JVal) : Except PyErr String :=
  match v with
  | .jstr s => .ok s
  | _ => .error (.typeError "expected string or bytes-like object")

/-! ### main.determine_container_port (lines 2747-2934) -/

/-- The docker configuration files probed first. -/
def dockerFilesList : List String := ["Dockerfile", "docker-compose.yml", "docker-compose.yaml"]

/-- The framework configuration files probed second. -/
def nextConfigFilesList : List String := ["next.config.js", "nuxt.config.js"]

/-- The environment files probed by both determine_container_port and
extract_app_details. -/
def envFilesList : List String :=
  [".env", ".env.production", ".env.development", ".env.local",
   ".env.example", ".env.defaults", ".env.template", ".env.sample",
   "config/.env", "config/env.js", "config/config.js"]

/-- The generic JS/TS files probed late by determine_container_port. -/
def jsFilesList : List String :=
  ["app.js", "index.js", "main.js", "server.js",
   "src/index.js", "src/server.js", "src/app.js", "src/main.js",
   "app.ts", "index.ts", "main.ts", "server.ts",
   "src/index.ts", "src/server.ts", "src/app.ts", "src/main.ts",
   "config.js", "src/config.js", "config/index.js"]

/-- Tier 1: Dockerfile EXPOSE directive or docker-compose ports mapping. -/
def dockerTier (fs : Fs) (cwd dir : String) : Option Nat :=
  firstSome (fun name =>
    match fs.read? (resolvePath cwd (pathJoin dir name)) with
    | none => none
    | some content =>
      if name = "Dockerfile" then exposeSearch content.data
      else composePortsSearch content.data) dockerFilesList

/-- Tier 2: next.config.js / nuxt.config.js port entry. -/
def nextConfigTier (fs : Fs) (cwd dir : String) : Option Nat :=
  firstSome (fun name =>
    match fs.read? (resolvePath cwd (pathJoin dir name)) with
    | none => none
    | some content => portColonSearch content.data) nextConfigFilesList

/-- Tier 3: server.js listen call, PORT assignment, or app.set(port). -/
def serverJsTier (fs : Fs) (cwd dir : String) : Option Nat :=
  match fs.read? (resolvePath cwd (pathJoin dir "server.js")) with
  | none => none
  | some content =>
    match listenSearch content.data with
    | some p => some p
    | none =>
      match portAssignSearch content.data with
      | some p => some p
      | none => appSetPortSearch content.data

/-- The body of the package.json try block; a raised exception is caught
by the surrounding handler and the tier yields nothing. -/
def pkgJsonBody (pkg : JVal) : Except PyErr (Option Int) := do
  let r1 ← (do
    let b1 ← pyIn (.jstr "scripts") pkg
    if b1 then do
      let scripts ← JVal.getItem pkg "scripts"
      let b2 ← pyIn (.jstr "start") scripts
      if b2 then do
        let start ← JVal.getItem scripts "start"
        let s ← asStr start
        pure ((varEqSearch "PORT" s.data).map (fun n => (n : Int)))
      else pure none
    else pure none)
  match r1 with
  | some p => pure (some p)
  | none => do
    let b3 ← pyIn (.jstr "config") pkg
    if b3 then do
      let cfg ← JVal.getItem pkg "config"
      let b4 ← pyIn (.jstr "port") cfg
      if b4 then do
        let pv ← JVal.getItem cfg "port"
        let n ← pyInt pv
        pure (some n)
      else pure none
    else pure none

/-- Tier 4: package.json start script PORT= or config.port entry. -/
def packageJsonTier (fs : Fs) (cwd dir : String) : Option Int :=
  match fs.read? (resolvePath cwd (pathJoin dir "package.json")) with
  | none => none
  | some content =>
    match jsonLoads content with
    | none => none
    | some pkg =>
      match pkgJsonBody pkg with
      | .ok r => r
      | .error _ => none

/-- Tier 5: PORT=, APP_PORT= or SERVER_PORT= in an environment file. -/
def envFilesTier (fs : Fs) (cwd dir : String) : Option Nat :=
  firstSome (fun name =>
    match fs.read? (resolvePath cwd (pathJoin dir name)) with
    | none => none
    | some content =>
      match varEqSearch "PORT" content.data with
      | some p => some p
      | none =>
        match varEqSearch "APP_PORT" content.data with
        | some p => some p
        | none => varEqSearch "SERVER_PORT" content.data) envFilesList

/-- Tier 6: generic JS/TS source scan (listen call, PORT assignment,
port in a config object). -/
def jsFilesTier (fs : Fs) (cwd dir : String) : Option Nat :=
  firstSome (fun name =>
    match fs.read? (resolvePath cwd (pathJoin dir name)) with
    | none => none
    | some content =>
      match listenSearch content.data with
      | some p => some p
      | none =>
        match portAssignSearch content.data with
        | some p => some p
        | none => configPortSearch content.data) jsFilesList

/-- Tier 7: a Procfile referencing $PORT yields the fixed default 3000. -/
def procfileTier (fs : Fs) (cwd dir : String) : Option Nat :=
  match fs.read? (resolvePath cwd (pathJoin dir "Procfile")) with
  | none => none
  | some content =>
    if strIn "$PORT" content || strIn "$\x7bPORT\x7d" content then some 3000 else none

/-- main.OrchestratorAgent.determine_container_port: the strictly
ordered heuristics, first match wins, default 3000. -/
def determine_container_port (fs : Fs) (cwd dir : String) : Int :=
  match dockerTier fs cwd dir with
  | some p => (p : Int)
  | none =>
    match nextConfigTier fs cwd dir with
    | some p => (p : Int)
    | none =>
      match serverJsTier fs cwd dir with
      | some p => (p : Int)
      | none =>
        match packageJsonTier fs cwd dir with
        | some p => p
        | none =>
          match envFilesTier fs cwd dir with
          | some p => (p : Int)
          | none =>
            match jsFilesTier fs cwd dir with
            | some p => (p : Int)
            | none =>
              match procfileTier fs cwd dir with
              | some p => (p : Int)
              | none => 3000

end Orchestrator

/-! ### main.extract_app_details (lines 2381-2724) -/

/-- The mutable session state of the orchestrator. -/
structure SessionState where
  lastProjectFolder : Option String
  lastProjectType : Option String
deriving Repr, DecidableEq

/-- Python truthiness of an optional string attribute. -/
def optTruthy : Option String → Bool
  | some s => s ≠ ""
  | none => false

/-- Python str.title (capitalise the first letter of each word). -/
def titleChars : List Char → Bool → List Char
  | [], _ => []
  | c :: tl, prevAlpha =>
    (if c.isAlpha then (if prevAlpha then c.toLower else c.toUpper) else c) ::
      titleChars tl c.isAlpha

/-- Python str.title on a String. -/
def pyTitle (s : String) : String := String.mk (titleChars s.data false)

/-- Split a character list at the first equals sign (str.split with
maxsplit 1), when one is present. -/
def splitEqOnce : List Char → Option (List Char × List Char)
  | [] => none
  | c :: tl =>
    if c = '=' then some ([], tl)
    else (splitEqOnce tl).map (fun p => (c :: p.1, p.2))

/-- Python str.strip(chars): remove leading and trailing characters
drawn from the given set. -/
def stripSet (set : List Char) (cs : List Char) : List Char :=
  ((cs.dropWhile (fun c => set.contains c)).reverse.dropWhile (fun c => set.contains c)).reverse

/-- Update an association list, overwriting an existing key (Python
dict assignment). -/
def assocSet (m : List (String × String)) (k v : String) : List (String × String) :=
  if m.any (fun e => e.1 = k) then m.map (fun e => if e.1 = k then (k, v) else e)
  else m ++ [(k, v)]

/-- Keep the first occurrence of each element. -/
def dedupFirstAux (seen : List String) : List String → List String
  | [] => []
  | x :: xs =>
    if seen.contains x then dedupFirstAux seen xs
    else x :: dedupFirstAux (x :: seen) xs

/-- Parent directory of a canonical absolute file path. -/
def dirOf (p : String) : String :=
  "/" ++ joinStr "/" (pathSegs p).dropLast

/-- Base name of a canonical absolute file path. -/
def baseNameOf (p : String) : String := (pathSegs p).getLastD p

/-- The (directory, file names) pairs os.walk yields under root, with
directory order taken from first appearance in the file system (the
listing order of os.walk is environment-defined). -/
def walkList (fs : Fs) (root : String) : List (String × List String) :=
  let paths := fs.filesUnder root
  let dirs := dedupFirstAux [] (root :: paths.map dirOf)
  dirs.map (fun d => (d, paths.filterMap (fun p => if dirOf p = d then some (baseNameOf p) else none)))

namespace Orchestrator

/-- The deployment-descriptor dictionary extract_app_details builds.
Fields mirror the keys of the Python dict literal; content_dir is the
key added only when a prior project exists. -/
structure AppDetails where
  project_name : String
  project_id : String
  environment : String
  region : String
  container_image : String
  container_port : Int
  container_cpu : Int
  container_memory : Int
  desired_count : Int
  min_capacity : Int
  max_capacity : Int
  health_check_path : String
  db_name : String
  db_username : String
  postgres_version : String
  db_instance_class : String
  db_allocated_storage : Int
  needs_database : Bool
  db_type : String
  container_environment : List (String × String)
  content_dir : Option String
deriving Repr

/-- The explicit-mention keywords of the first database layer. -/
def dbIndicators : List String := ["database", "db", "data", "storage", "persist", "store", "save"]

/-- The app-type keywords of the second database layer. -/
def appTypeIndicators : List String :=
  ["todo", "task", "note", "blog", "user", "auth", "login", "crud"]

/-- The environment-variable prefixes scanned in env files. -/
def dbVarPrefixes : List String :=
  ["DB_", "DATABASE_", "POSTGRES_", "MYSQL_", "MONGO_", "MONGODB_", "SQL_", "PG_", "SEQUELIZE_"]

/-- The backend files scanned for database client usage. -/
def serverFilesList : List String :=
  ["server.js", "app.js", "index.js", "db.js", "database.js",
   "src/server.js", "src/app.js", "src/index.js", "src/db.js", "src/database.js",
   "src/config/database.js", "src/models/index.js", "src/util/database.js"]

/-- The database client libraries looked for in import statements. -/
def dbImportsList : List String :=
  ["pg", "postgres", "postgresql", "sequelize", "mysql", "mysql2", "mongoose", "mongodb",
   "sqlite", "knex", "prisma"]

/-- The migration / ORM directories checked. -/
def sqlDirsList : List String := ["migrations", "db/migrations", "src/migrations", "prisma"]

/-- The dependency groups checked in package.json, in dict order. -/
def dbDepsGroups : List (String × List String) :=
  [("postgres", ["pg", "pg-promise", "postgres", "postgresql", "sequelize"]),
   ("mysql", ["mysql", "mysql2", "sequelize"]),
   ("mongodb", ["mongodb", "mongoose"]),
   ("any", ["knex", "prisma", "typeorm", "mikro-orm", "drizzle-orm"])]

/-- Oracle for the one LLM call extract_app_details makes (the short
app-name extraction). -/
structure AppDetailsEnv where
  appNameCall : Except PyErr String

/-- Clean an extracted name: strip, lower, keep [a-z0-9-]. -/
def sanitizeName (s : String) : String :=
  String.mk ((lowerChars (stripChars s.data)).filter
    (fun c => ('a' ≤ c ∧ c ≤ 'z') ∨ c.isDigit ∨ c = '-'))

/-- Last n characters of a string (Python s[-n:]). -/
def lastNChars (n : Nat) (s : String) : String :=
  String.mk (s.data.drop (s.data.length - n))

/-- The per-line extraction of database name / user / port performed
inside the env-file loop; it never touches needs_database. -/
def envExtractLine (st : AppDetails) (line : String) : AppDetails :=
  let st :=
    if ["DB_NAME=", "DATABASE_NAME=", "POSTGRES_DB=", "MYSQL_DATABASE="].any
        (fun v => strIn v line) then
      match splitEqOnce line.data with
      | some (_, rest) =>
        let dbn := String.mk (stripSet ['"', '\''] (stripChars rest))
        if dbn ≠ "" ∧ dbn ≠ "your_db_name" ∧ dbn ≠ "database_name" then
          { st with db_name := dbn }
        else st
      | none => st
    else st
  let st :=
    if ["DB_USER=", "DATABASE_USER=", "POSTGRES_USER=", "MYSQL_USER="].any
        (fun v => strIn v line) then
      match splitEqOnce line.data with
      | some (_, rest) =>
        let dbu := String.mk (stripSet ['"', '\''] (stripChars rest))
        if dbu ≠ "" ∧ dbu ≠ "your_username" ∧ dbu ≠ "database_user" then
          { st with db_username := dbu }
        else st
      | none => st
    else st
  if ["DB_PORT=", "DATABASE_PORT=", "POSTGRES_PORT=", "MYSQL_PORT="].any
      (fun v => strIn v line) then
    match eqNumSearch line.data with
    | some 5432 => { st with db_type := "postgres" }
    | some 3306 => { st with db_type := "mysql" }
    | some 27017 => { st with db_type := "mongodb" }
    | _ => st
  else st

/-- One iteration of the env-file loop: when the file exists and any
database variable prefix occurs in it, set the flag and run the line
extraction over its lines. -/
def envFileStep (fs : Fs) (cwd folder : String) (st : AppDetails) (name : String) : AppDetails :=
  match fs.read? (resolvePath cwd (pathJoin folder name)) with
  | none => st
  | some content =>
    if dbVarPrefixes.any (fun p => strIn p content) then
      let st := { st with needs_database := true }
      ((splitChar '\n' content.data).map String.mk).foldl envExtractLine st
    else st

/-- Database engine inferred from a client-library import. -/
def importGroupType (lib : String) : Option String :=
  if lib = "pg" ∨ lib = "postgres" ∨ lib = "postgresql" ∨ lib = "sequelize" then some "postgres"
  else if lib = "mysql" ∨ lib = "mysql2" then some "mysql"
  else if lib = "mongoose" ∨ lib = "mongodb" then some "mongodb"
  else none

/-- One iteration of the server-file loop: the first matching
client-library import sets the flag and possibly the engine; any
connection pattern also sets the flag. -/
def serverFileStep (fs : Fs) (cwd folder : String) (st : AppDetails) (name : String) : AppDetails :=
  match fs.read? (resolvePath cwd (pathJoin folder name)) with
  | none => st
  | some content =>
    let st :=
      match dbImportsList.find?
          (fun lib => requireImportSearch lib content.data || fromImportSearch lib content.data) with
      | some lib =>
        let st := { st with needs_database := true }
        (match importGroupType lib with
         | some t => { st with db_type := t }
         | none => st)
      | none => st
    if connPattern1 content.data || connPattern2 content.data ||
       connPattern3 content.data || connPattern4 content.data then
      { st with needs_database := true }
    else st

/-- Keys of a JSON object (dict.update / key membership); TypeError on
other values, caught by the surrounding handler. -/
def pkgKeys (v : JVal) : Except PyErr (List String) :=
  match v with
  | .jobj kvs => .ok (kvs.map Prod.fst)
  | _ => .error (.typeError "not a dict")

/-- Merged dependency names of a parsed package.json (dependencies then
devDependencies; only key membership is consumed downstream). -/
def pkgDependencyNames (pkg : JVal) : Except PyErr (List String) := do
  let b1 ← pyIn (.jstr "dependencies") pkg
  let d1 ← if b1 then do
      let v ← JVal.getItem pkg "dependencies"
      pkgKeys v
    else pure []
  let b2 ← pyIn (.jstr "devDependencies") pkg
  let d2 ← if b2 then do
      let v ← JVal.getItem pkg "devDependencies"
      pkgKeys v
    else pure []
  pure (d1 ++ d2)

/-- One dependency group of the package.json check: the first present
dependency sets the flag, and the engine when the group is not any. -/
def pkgGroupStep (deps : List String) (st : AppDetails) (g : String × List String) : AppDetails :=
  match g.2.find? (fun dep => deps.contains dep) with
  | some _ =>
    let st := { st with needs_database := true }
    if g.1 ≠ "any" then { st with db_type := g.1 } else st
  | none => st

/-- The package.json dependency check; a parse failure or a raised
exception is caught and contributes nothing. -/
def pkgStep (fs : Fs) (cwd folder : String) (st : AppDetails) : AppDetails :=
  match fs.read? (resolvePath cwd (pathJoin folder "package.json")) with
  | none => st
  | some content =>
    match jsonLoads content with
    | none => st
    | some pkg =>
      match pkgDependencyNames pkg with
      | .error _ => st
      | .ok deps => dbDepsGroups.foldl (pkgGroupStep deps) st

/-- One iteration of the migrations-directory check, including the
prisma schema engine sniff. -/
def migrationsDirStep (fs : Fs) (cwd folder : String) (st : AppDetails) (d : String) : AppDetails :=
  if fs.exists' (resolvePath cwd (pathJoin folder d)) && fs.isDir (resolvePath cwd (pathJoin folder d)) then
    let st := { st with needs_database := true }
    if d = "prisma" then
      match fs.read? (resolvePath cwd (pathJoin (pathJoin folder d) "schema.prisma")) with
      | some schema =>
        if strIn "postgresql" schema || strIn "postgres" schema then
          { st with db_type := "postgres" }
        else if strIn "mysql" schema then { st with db_type := "mysql" }
        else if strIn "mongodb" schema then { st with db_type := "mongodb" }
        else st
      | none => st
    else st
  else st

/-- One directory of the SQL-file walk: the first .sql file sets the
flag and sniffs the dialect from its content. -/
def sqlDirStep (fs : Fs) (st : AppDetails) (entry : String × List String) : AppDetails :=
  match entry.2.find? (fun f => endsWith f ".sql") with
  | some f =>
    let st := { st with needs_database := true }
    match fs.read? (pathJoin entry.1 f) with
    | some content =>
      let lower := pyLower content
      if strIn "serial" lower || strIn "pg_" lower then { st with db_type := "postgres" }
      else if strIn "auto_increment" lower then { st with db_type := "mysql" }
      else st
    | none => st
  | none => st

/-- Parse an .app_status file into key/value pairs and test the
demo-mode sentinel. -/
def appStatusDemoMode (content : String) : Bool :=
  let pairs := ((splitChar '\n' content.data).map String.mk).foldl
    (fun acc line =>
      if strIn "=" line then
        match splitEqOnce (stripChars line.data) with
        | some (k, v) => assocSet acc (String.mk k) (String.mk v)
        | none => acc
      else acc) ([] : List (String × String))
  match pairs.find? (fun e => e.1 = "APP_DEMO_MODE") with
  | some e => pyLower e.2 = "true"
  | none => false

/-- The demo-mode check over the .app_status file of the last project. -/
def demoStep (fs : Fs) (cwd folder : String) (st : AppDetails) : AppDetails :=
  match fs.read? (resolvePath cwd (pathJoin folder ".app_status")) with
  | none => st
  | some content => if appStatusDemoMode content then { st with needs_database := true } else st

/-- The container-port refinement over the last project (a port of 0 is
falsy in Python and leaves the default). -/
def portStep (fs : Fs) (cwd folder : String) (st : AppDetails) : AppDetails :=
  let cp := determine_container_port fs cwd folder
  if cp ≠ 0 then { st with container_port := cp } else st

/-- The server_demo.js sentinel check. -/
def demoFileStep (fs : Fs) (cwd folder : String) (st : AppDetails) : AppDetails :=
  if fs.exists' (resolvePath cwd (pathJoin folder "server_demo.js")) then
    { st with needs_database := true }
  else st

/-- main.OrchestratorAgent.extract_app_details: name extraction, the
two text layers, the dict of defaults, then — when a prior app project
is tracked — the file-inspection layers in source order (.app_status
demo mode, container port, env files, server files, package.json,
migrations, SQL walk, server_demo.js sentinel). -/
def extract_app_details (env : AppDetailsEnv) (fs : Fs) (cwd : String) (sess : SessionState)
    (userInput : String) (timestamp : Nat) : AppDetails :=
  let shortTs := lastNChars 4 (toString timestamp)
  let appName0 :=
    match env.appNameCall with
    | .ok text =>
      let n := sanitizeName text
      if n = "" then "app" else n
    | .error _ => "app"
  let appName := if strIn "todo" (pyLower userInput) then "todo-" ++ shortTs else appName0
  let needsDb0 := dbIndicators.any (fun k => strIn k (pyLower userInput))
  let dbType0 :=
    if needsDb0 then
      if strIn "postgres" (pyLower userInput) || strIn "postgresql" (pyLower userInput) then
        "postgres"
      else if strIn "mysql" (pyLower userInput) then "mysql"
      else if strIn "mongo" (pyLower userInput) || strIn "mongodb" (pyLower userInput) then
        "mongodb"
      else "postgres"
    else "postgres"
  let needsDb1 := needsDb0 || appTypeIndicators.any (fun k => strIn k (pyLower userInput))
  let details : AppDetails :=
    { project_name := appName
      project_id := "agentx-project-" ++ toString timestamp
      environment := "dev"
      region := "us-east-1"
      container_image := "public.ecr.aws/z9d2n7e1/nginx:alpine"
      container_port := 3000
      container_cpu := 256
      container_memory := 512
      desired_count := 1
      min_capacity := 1
      max_capacity := 3
      health_check_path := "/health"
      db_name := if strIn "todo" (pyLower userInput) then "app" ++ shortTs else "appdb"
      db_username := "appuser"
      postgres_version := "14"
      db_instance_class := "db.t3.micro"
      db_allocated_storage := 20
      needs_database := needsDb1
      db_type := dbType0
      container_environment :=
        [("NODE_ENV", "production"), ("PORT", "3000"), ("APP_NAME", pyTitle appName ++ " App")]
      content_dir := none }
  if optTruthy sess.lastProjectFolder && optTruthy sess.lastProjectType &&
      startsWith (sess.lastProjectType.getD "") "app_" then
    let folder := sess.lastProjectFolder.getD ""
    let details := { details with
      project_id := pathBaseName folder, content_dir := some folder }
    let details := demoStep fs cwd folder details
    let details := portStep fs cwd folder details
    let details := envFilesList.foldl (envFileStep fs cwd folder) details
    let details := serverFilesList.foldl (serverFileStep fs cwd folder) details
    let details := pkgStep fs cwd folder details
    let details := sqlDirsList.foldl (migrationsDirStep fs cwd folder) details
    let details := (walkList fs (resolvePath cwd folder)).foldl (sqlDirStep fs) details
    let details := demoFileStep fs cwd folder details
    details
  else details

end Orchestrator

/-! ## main.py: chat dispatch and handlers

The handlers are embedded at the granularity of external-call
outcomes.  Helper components of q_agent / main that are total by
construction (serve_website, start_app, dockerize_application — each
wraps its whole body in try/except and returns a result dict) are
modelled as oracle-supplied result records; the conversation history is
not modelled (it only feeds prompt text).  The working directory is
restored by every handler on every path in the source, so it is
threaded as an unchanged parameter. -/

namespace Chat

/-- Python str(e) for the embedded exception values (KeyError stringifies
as the quoted key). -/
def pyErrMsg : PyErr → String
  | .keyError k => "\x27" ++ k ++ "\x27"
  | .typeError m => m
  | .attributeError m => m
  | .exc m => m

/-- The dict a handler returns to the main loop. -/
structure Payload where
  response : String
  result : Option String
  used_q_cli : Bool
deriving Repr

/-- Result record of q_agent.serve_website (total by construction). -/
structure ServeResult where
  success : Bool
  url : String
  message : String
  html_files : List String

/-- Result record of OrchestratorAgent.start_app (total by construction);
url is an optional key. -/
structure StartResult where
  success : Bool
  url : Option String
  message : String

/-- Result record of dockerize_application (total by construction). -/
structure DockerizeResult where
  success : Bool
  image_uri : String
  message : String

/-- Outcome of the q chat subprocess inside q_agent.q_chat. -/
inductive QChatOutcome where
  | ran (rc : Int) (out err : String)
  | timedOut
  | raised (e : PyErr)

/-- Oracle for one chat turn: the two classification calls, tool
availability flags, the LLM code-generation calls (per call site), the
builder and deployer oracles, and the total helper results. -/
structure ChatEnv where
  classify1 : Except PyErr String
  classify2 : Except PyErr String
  webSearchA : Except PyErr String
  claudeA : Except PyErr String
  webSearchB : Except PyErr String
  claudeB : Except PyErr String
  claudeConv : Except PyErr String
  nameCall : Except PyErr String
  contentDirCall : Except PyErr String
  appNameCall : Except PyErr String
  buildEnv : QAgent.BuildEnv
  serveRes : ServeResult
  startRes : StartResult
  qChatOutcome : QChatOutcome
  awsAvailable : Bool
  terraformAvailable : Bool
  dockerAvailable : Bool
  dockerizeRes : DockerizeResult
  deployEnv : Deploy.DeployEnv
  appInitRes : Deploy.TfCmd
  appApplyRes : Deploy.TfCmd
  appOutputRes : Deploy.TfCmd
  timestamp : Nat
  timeStr : String
  dateStr : String

/-- main.OrchestratorAgent.web_search (lines 933-974): total, returning
either the response text or an error string. -/
def web_search (outcome : Except PyErr String) : String :=
  match outcome with
  | .ok t => t
  | .error e => "Error performing web search: " ++ pyErrMsg e

/-- q_agent.QAgent.q_chat (lines 173-218): total, mapping every outcome
to a response string (q is available on this path). -/
def q_chat (o : QChatOutcome) : String :=
  match o with
  | .ran rc out err => if rc = 0 then out else "Error communicating with Amazon Q: " ++ err
  | .timedOut => "Error: Command timed out"
  | .raised e => "Error communicating with Amazon Q: " ++ pyErrMsg e

/-- The website deployment details record of extract_website_details. -/
structure WebsiteDetails where
  bucket_name : String
  domain_name : Option String
  zone_id : Option String
  environment : String
  description : String
  region : String
  folder_name : String
  project_id : String
  content_dir : Option String
deriving Repr

/-- main.OrchestratorAgent.extract_website_details (lines 1785-1838):
name extraction via one guarded LLM call, then a record of defaults;
the project id is taken from a tracked website project. -/
def extract_website_details (nameCall : Except PyErr String) (st : SessionState)
    (timestamp : Nat) : WebsiteDetails :=
  let websiteName :=
    match nameCall with
    | .ok t =>
      let n := Orchestrator.sanitizeName t
      if n = "" then "website" else n
    | .error _ => "website"
  { bucket_name := "agentx-websites-" ++ toString timestamp
    domain_name := none
    zone_id := none
    environment := "prod"
    description := websiteName ++ " website"
    region := "us-east-1"
    folder_name := websiteName ++ "-" ++ toString timestamp
    project_id :=
      if optTruthy st.lastProjectFolder ∧ st.lastProjectType = some "website" then
        pathBaseName (st.lastProjectFolder.getD "")
      else "agentx-project-" ++ toString timestamp
    content_dir := none }

/-- main.OrchestratorAgent.extract_content_directory (lines 1548-1600):
total (the whole body is inside one try).  Directory modification-time
ordering is modelled by file-system list order. -/
def extract_content_directory (outcome : Except PyErr String) (fs : Fs) (cwd : String)
    (st : SessionState) : Option String :=
  match outcome with
  | .error _ => none
  | .ok t =>
    let cd := pyStrip t
    if pyLower cd = "null" ∨ cd = "" then
      if optTruthy st.lastProjectFolder ∧ st.lastProjectType = some "website" then
        st.lastProjectFolder
      else
        match (fs.dirs.filter (fun d =>
            dirOf d = resolvePath cwd "." ∧ startsWith (baseNameOf d) "web_project_")).head? with
        | some d => some (baseNameOf d)
        | none => none
    else some cd

/-- The sample index page of create_sample_website (lines 1607-1638). -/
def sampleSiteIndex (description : String) : String :=
  "\n<!DOCTYPE html>\n<html lang=\"en\">\n<head>\n  <meta charset=\"UTF-8\">\n  <meta name=\"viewport\" content=\"width=device-width, initial-scale=1.0\">\n  <title>" ++ description ++
  "</title>\n  <link rel=\"stylesheet\" href=\"styles.css\">\n</head>\n<body>\n  <div class=\"container\">\n    <h1>Welcome to " ++ description ++
  "!</h1>\n    <p>Successfully deployed with AgentX using AWS S3 and CloudFront.</p>\n    <div class=\"features\">\n      <div class=\"feature\">\n        <h2>Fast Delivery</h2>\n        <p>Content delivered via AWS CloudFront global CDN.</p>\n      </div>\n      <div class=\"feature\">\n        <h2>Secure</h2>\n        <p>HTTPS by default with modern TLS.</p>\n      </div>\n      <div class=\"feature\">\n        <h2>Scalable</h2>\n        <p>Handles any amount of traffic with ease.</p>\n      </div>\n    </div>\n  </div>\n</body>\n</html>\n            "

/-- The stylesheet of create_sample_website (lines 1641-1719). -/
def sampleSiteStyles : String :=
  "\n* \x7b\n  box-sizing: border-box;\n  margin: 0;\n  padding: 0;\n\x7d\n\nbody \x7b\n  font-family: \x27Segoe UI\x27, Tahoma, Geneva, Verdana, sans-serif;\n  line-height: 1.6;\n  color: #333;\n  background: linear-gradient(135deg, #f5f7fa 0%, #c3cfe2 100%);\n  min-height: 100vh;\n  display: flex;\n  justify-content: center;\n  align-items: center;\n  padding: 2rem;\n\x7d\n\n.container \x7b\n  max-width: 800px;\n  margin: 0 auto;\n  background-color: white;\n  border-radius: 15px;\n  padding: 2rem;\n  box-shadow: 0 10px 30px rgba(0, 0, 0, 0.1);\n  text-align: center;\n\x7d\n\nh1 \x7b\n  color: #2c3e50;\n  margin-bottom: 1rem;\n  font-size: 2.5rem;\n\x7d\n\np \x7b\n  margin-bottom: 2rem;\n  color: #7f8c8d;\n\x7d\n\n.features \x7b\n  display: flex;\n  flex-wrap: wrap;\n  justify-content: center;\n  gap: 1.5rem;\n  margin-top: 2rem;\n\x7d\n\n.feature \x7b\n  flex: 1 1 250px;\n  padding: 1.5rem;\n  border-radius: 10px;\n  background-color: #f8f9fa;\n  box-shadow: 0 4px 6px rgba(0, 0, 0, 0.05);\n  transition: transform 0.3s ease, box-shadow 0.3s ease;\n\x7d\n\n.feature:hover \x7b\n  transform: translateY(-5px);\n  box-shadow: 0 10px 20px rgba(0, 0, 0, 0.1);\n\x7d\n\nh2 \x7b\n  color: #3498db;\n  margin-bottom: 0.5rem;\n  font-size: 1.5rem;\n\x7d\n\n@media (max-width: 768px) \x7b\n  .features \x7b\n    flex-direction: column;\n  \x7d\n  \n  .container \x7b\n    padding: 1.5rem;\n  \x7d\n\x7d\n            "

/-- The error page of create_sample_website (lines 1721-1766). -/
def sampleSiteError : String :=
  "\n<!DOCTYPE html>\n<html lang=\"en\">\n<head>\n  <meta charset=\"UTF-8\">\n  <meta name=\"viewport\" content=\"width=device-width, initial-scale=1.0\">\n  <title>Error - Page Not Found</title>\n  <link rel=\"stylesheet\" href=\"styles.css\">\n  <style>\n    .container \x7b\n      text-align: center;\n      max-width: 600px;\n    \x7d\n    \n    h1 \x7b\n      color: #e74c3c;\n    \x7d\n    \n    .back-link \x7b\n      display: inline-block;\n      margin-top: 1.5rem;\n      padding: 0.75rem 1.5rem;\n      background-color: #3498db;\n      color: white;\n      text-decoration: none;\n      border-radius: 5px;\n      font-weight: 500;\n      transition: background-color 0.3s ease;\n    \x7d\n    \n    .back-link:hover \x7b\n      background-color: #2980b9;\n    \x7d\n  </style>\n</head>\n<body>\n  <div class=\"container\">\n    <h1>404 - Page Not Found</h1>\n    <p>The page you are looking for doesn\x27t exist or has been moved.</p>\n    <a href=\"/\" class=\"back-link\">Return to Homepage</a>\n  </div>\n</body>\n</html>\n            "

/-- main.OrchestratorAgent.create_sample_website (lines 1602-1766). -/
def create_sample_website (fs : Fs) (cwd directory description : String) : Fs :=
  let dirAbs := resolvePath cwd directory
  let fs := fs.makedirs dirAbs
  let fs := fs.write (dirAbs ++ "/index.html") (sampleSiteIndex description)
  let fs := fs.write (dirAbs ++ "/styles.css") sampleSiteStyles
  fs.write (dirAbs ++ "/error.html") sampleSiteError

/-- main.OrchestratorAgent.handle_conversation (lines 901-931): one LLM
call; the error payload carries str(e); neither branch has a result key. -/
def handle_conversation (env : ChatEnv) (fs : Fs) (st : SessionState) (input : String) :
    Payload × SessionState × Fs :=
  match env.claudeConv with
  | .ok text => ({ response := text, result := none, used_q_cli := false }, st, fs)
  | .error e =>
    ({ response := "Sorry, I encountered an error: " ++ pyErrMsg e, result := none,
       used_q_cli := false }, st, fs)

/-- The error indicators scanned in the Q CLI response (lines 831-839). -/
def errorIndicators : List String :=
  ["I don\x27t know how to", "I\x27m not familiar with", "I\x27m not sure how to",
   "Error", "Failed", "I don\x27t have enough context", "I need more information"]

/-- main.OrchestratorAgent.handle_q_cli_interaction (lines 774-899). -/
def handle_q_cli_interaction (env : ChatEnv) (fs : Fs) (st : SessionState) (input : String) :
    Payload × SessionState × Fs :=
  if ¬ env.buildEnv.qAvailable then
    match env.claudeA with
    | .ok text => ({ response := text, result := none, used_q_cli := false }, st, fs)
    | .error _ =>
      handle_conversation env fs st
        ("I would like to use Amazon Q CLI for this, but it\x27s not available in my WSL environment. Can you help me with: " ++ input)
  else
    let response := "I\x27ll use Amazon Q CLI to help with your request..."
    let qresp := q_chat env.qChatOutcome
    let needsWeb := errorIndicators.any (fun ind => strIn (pyLower ind) (pyLower qresp))
    if needsWeb then
      match env.claudeB with
      | .ok text =>
        ({ response := response,
           result := some ("I used Amazon Q CLI for your request, but I\x27ve enhanced the response with additional information:\n\n" ++ text),
           used_q_cli := true }, st, fs)
      | .error _ => ({ response := response, result := some qresp, used_q_cli := true }, st, fs)
    else ({ response := response, result := some qresp, used_q_cli := true }, st, fs)

/-- The body of handle_website_build after the is_iteration lookup
(main.py lines 186-341): reset-on-new-request, the Claude fallback when
q is unavailable, the build, state tracking on success, serving, and
the web-search recovery on failure. -/
def websiteBuildCore (env : ChatEnv) (fs : Fs) (cwd : String) (st : SessionState)
    (input : String) (isIter : Bool) : Payload × SessionState × Fs :=
  let st := if ¬ isIter then { lastProjectFolder := none, lastProjectType := none } else st
  if ¬ env.buildEnv.qAvailable then
    let response := "Amazon Q CLI is not available in your WSL environment, but I can provide you with the code for a simple website based on your requirements:"
    match env.claudeA with
    | .ok code => ({ response := response, result := some code, used_q_cli := false }, st, fs)
    | .error e =>
      ({ response := response,
         result := some ("Sorry, I encountered an error while generating website code: " ++ pyErrMsg e),
         used_q_cli := false }, st, fs)
  else
    let useExisting := isIter ∧ optTruthy st.lastProjectFolder ∧
      st.lastProjectType = some "website"
    let projectDir : Option String := if useExisting then st.lastProjectFolder else none
    let response :=
      if useExisting then
        "I\x27ll modify the existing website based on your new requirements. This may take a minute..."
      else
        "I\x27ll use Amazon Q CLI to build a website based on your requirements. This may take a minute..."
    let wr := QAgent.build_website env.buildEnv fs cwd input projectDir env.timestamp
    if wr.success then
      let st := { lastProjectFolder := some wr.project_dir,
                  lastProjectType := some "website" : SessionState }
      let info :=
        if env.serveRes.success then
          let htmlFilesStr :=
            if env.serveRes.html_files.isEmpty then "No HTML files"
            else joinStr ", " env.serveRes.html_files
          "Website " ++ (if isIter then "updated" else "built") ++ " successfully!\n\n" ++
          "Files " ++ (if isIter then "updated" else "created") ++ " in: " ++ wr.project_dir ++
          "\nHTML files: " ++ htmlFilesStr ++
          "\n\nYou can access the website at: " ++ env.serveRes.url ++
          "\n\nIf the site doesn\x27t load in your browser, try opening the HTML file directly from:\n" ++
          pathJoin (resolvePath cwd wr.project_dir) (env.serveRes.html_files.headD "index.html")
        else
          "Website " ++ (if isIter then "updated" else "built") ++
          " successfully, but couldn\x27t start the server.\n\nError: " ++ env.serveRes.message ++
          "\n\nFiles " ++ (if isIter then "updated" else "created") ++ " in: " ++ wr.project_dir ++
          "\nYou can open the HTML file directly from:\n" ++
          pathJoin (resolvePath cwd wr.project_dir) "index.html"
      ({ response := response, result := some info, used_q_cli := true }, st, wr.fs)
    else
      let info :=
        match env.claudeB with
        | .ok code =>
          "Q CLI encountered an error: " ++ wr.message ++
          "\n\nHowever, I\x27ve generated website code for you using Claude and information from the web:\n\n" ++ code
        | .error _ => "Failed to build website: " ++ wr.message
      ({ response := response, result := some info, used_q_cli := true }, st, wr.fs)

/-- main.OrchestratorAgent.handle_website_build (lines 177-341): the
only fallible step is request_info.get on the second classification
result (AttributeError on a non-dict); everything after is total. -/
def handle_website_build (env : ChatEnv) (fs : Fs) (cwd : String) (st : SessionState)
    (input : String) : Except PyErr (Payload × SessionState × Fs) := do
  let isIterV ← JVal.getAttrDefault (Orchestrator.analyze_request_with_llm env.classify2)
    "is_iteration" (.jbool false)
  pure (websiteBuildCore env fs cwd st input isIterV.pyTruthy)

/-- The body of handle_app_build after the is_iteration lookup (main.py
lines 361-610): Claude fallback when q is unavailable, the build, state
tracking on success (no reset on failure), auto-start for web apps, and
the recovery path. -/
def appBuildCore (env : ChatEnv) (fs : Fs) (cwd : String) (st : SessionState)
    (input appType : String) (isIter : Bool) : Payload × SessionState × Fs :=
  if ¬ env.buildEnv.qAvailable then
    match env.claudeA with
    | .ok code =>
      ({ response := "I\x27ve created a " ++ appType ++ " application based on your requirements. Here\x27s the code for the application:",
         result := some ("Here\x27s the " ++ appType ++ " application code based on your requirements:\n\n" ++ code),
         used_q_cli := false }, st, fs)
    | .error e =>
      ({ response := "Sorry, I encountered an error while trying to generate your " ++ appType ++ " application code.",
         result := some ("Failed to generate " ++ appType ++ " application code: " ++ pyErrMsg e),
         used_q_cli := false }, st, fs)
  else
    let useExisting := isIter ∧ optTruthy st.lastProjectFolder ∧
      optTruthy st.lastProjectType ∧ startsWith (st.lastProjectType.getD "") "app_"
    let projectDir : Option String := if useExisting then st.lastProjectFolder else none
    let response :=
      if useExisting then
        "I\x27ll modify the existing " ++ appType ++ " application based on your new requirements. This may take a minute..."
      else
        "I\x27ll use Amazon Q CLI to build a " ++ appType ++ " application based on your requirements. This may take a minute..."
    let ar := QAgent.build_app env.buildEnv fs cwd input appType projectDir env.timestamp
    if ar.success then
      let st := { lastProjectFolder := some ar.project_dir,
                  lastProjectType := some ("app_" ++ appType) : SessionState }
      let appInfo := "Successfully created " ++ appType ++ " application!\n\nProject directory: " ++
        ar.project_dir ++ "\n\nInstructions:\n" ++ ar.instructions
      if appType = "web" ∧ env.startRes.success then
        ({ response := "I\x27ve created and started your web application. You can access it at " ++
             env.startRes.url.getD "the URL shown below",
           result := some (appInfo ++ "\n\nThe app is now running at: " ++
             env.startRes.url.getD "Unknown URL"),
           used_q_cli := true }, st, ar.fs)
      else
        ({ response := "I\x27ve created your " ++ appType ++ " application based on your requirements.",
           result := some appInfo, used_q_cli := true }, st, ar.fs)
    else
      let appInfo :=
        match env.claudeB with
        | .ok code =>
          "Q CLI encountered an error: " ++ ar.message ++
          "\n\nHowever, I\x27ve generated " ++ appType ++ " application code for you using Claude and information from the web:\n\n" ++ code
        | .error _ => "Failed to build " ++ appType ++ " application: " ++ ar.message
      ({ response := "I encountered an issue while building your " ++ appType ++ " application with Q CLI, but I\x27ve provided alternative code you can use.",
         result := some appInfo, used_q_cli := true }, st, ar.fs)

/-- main.OrchestratorAgent.handle_app_build (lines 343-610). -/
def handle_app_build (env : ChatEnv) (fs : Fs) (cwd : String) (st : SessionState)
    (input appType : String) : Except PyErr (Payload × SessionState × Fs) := do
  let isIterV ← JVal.getAttrDefault (Orchestrator.analyze_request_with_llm env.classify2)
    "is_iteration" (.jbool false)
  pure (appBuildCore env fs cwd st input appType isIterV.pyTruthy)

/-- main.OrchestratorAgent.handle_static_website_deploy (lines 976-1114):
total — the deployment try/except turns a raising deploy into an error
payload. -/
def handle_static_website_deploy (env : ChatEnv) (fs : Fs) (cwd : String) (st : SessionState)
    (input : String) : Payload × SessionState × Fs :=
  if ¬ env.awsAvailable then
    let response := "AWS CLI is not available in your environment, but I can provide you with the Terraform code to deploy a static website to AWS."
    match env.claudeA with
    | .ok code => ({ response := response, result := some code, used_q_cli := false }, st, fs)
    | .error e =>
      ({ response := response,
         result := some ("Sorry, I encountered an error while generating Terraform code: " ++ pyErrMsg e),
         used_q_cli := false }, st, fs)
  else
    let response := "I\x27ll help you deploy a static website to AWS using S3 and CloudFront. This may take a few minutes..."
    let details := extract_website_details env.nameCall st env.timestamp
    let detfs : WebsiteDetails × Fs :=
      if optTruthy st.lastProjectFolder ∧ st.lastProjectType = some "website" then
        ({ details with content_dir := st.lastProjectFolder }, fs)
      else
        match extract_content_directory env.contentDirCall fs cwd st with
        | some cd =>
          if fs.exists' (resolvePath cwd cd) then ({ details with content_dir := some cd }, fs)
          else
            let sampleDir := "./website_content/" ++ details.bucket_name
            ({ details with content_dir := some sampleDir },
             create_sample_website (fs.makedirs (resolvePath cwd sampleDir)) cwd sampleDir
               details.description)
        | none =>
          let sampleDir := "./website_content/" ++ details.bucket_name
          ({ details with content_dir := some sampleDir },
           create_sample_website (fs.makedirs (resolvePath cwd sampleDir)) cwd sampleDir
             details.description)
    let details := detfs.1
    let fs := detfs.2
    let cfg : Deploy.ConsolidatedConfig :=
      { bucket_name := details.bucket_name, main_bucket_name := none,
        folder_name := some details.folder_name, environment := some details.environment,
        domain_name := details.domain_name, zone_id := details.zone_id, price_class := none,
        region := some details.region, project_id := some details.project_id,
        content_dir := details.content_dir }
    match Deploy.deploy_consolidated_website env.deployEnv fs cwd cfg env.timestamp env.timeStr with
    | (.error e, fs) =>
      ({ response := response, result := some ("Error during website deployment: " ++ pyErrMsg e),
         used_q_cli := false }, st, fs)
    | (.ok dres, fs) =>
      if dres.success then
        let cloudfrontDomain :=
          if dres.website_url = "" then ""
          else String.mk ((splitChar '/' dres.website_url.data).headD [])
        let directUrl := "https://" ++ cloudfrontDomain ++ "/" ++ details.folder_name ++ "/index.html"
        let info :=
          "Static website successfully deployed to AWS!\n\nWebsite URL (copy and paste this into your browser):\n" ++
          directUrl ++ "\n\nCloudFront Distribution: " ++ dres.cloudfront_distribution ++ "\n"
        let info :=
          if dres.custom_domain_url ≠ "" then
            info ++ "Custom Domain: " ++ dres.custom_domain_url ++ "\n\n"
          else info
        let info := info ++ "S3 Bucket: " ++ dres.s3_bucket ++ "\n\n" ++
          "Deployment Instructions:\n" ++ dres.deployment_instructions
        ({ response := "Your website has been deployed to AWS! Access it at: " ++ directUrl,
           result := some info, used_q_cli := false }, st, fs)
      else
        ({ response := response,
           result := some ("Failed to deploy static website: " ++ dres.error ++
             "\n\nPlease check your AWS credentials and try again."),
           used_q_cli := false }, st, fs)

/-- Capture of re.search(r'app at\s+([^\s]+)', input): literal, a
whitespace run, then a maximal nonempty non-whitespace token. -/
def appAtCapture (cs : List Char) : Option String := do
  let cs ← dropLit "app at" cs
  let cs ← wsPlus cs
  let tok := cs.takeWhile (fun c => ¬ isWs c)
  if tok.isEmpty then none else some (String.mk tok)

/-- Leftmost match of the app-path pattern. -/
def appAtSearch (s : String) : Option String := searchAt appAtCapture s.data

/-- json.dumps of the container_environment list of name/value objects. -/
def jsonDumpEnvList (xs : List (String × String)) : String :=
  "[" ++ joinStr ", " (xs.map (fun p =>
    "\x7b\"name\": \"" ++ p.1 ++ "\", \"value\": \"" ++ p.2 ++ "\"\x7d")) ++ "]"

/-- The ECS/RDS main.tf the app deployment writes (main.py lines
2003-2065). -/
def appDeployMainTf (d : Orchestrator.AppDetails) (dateStr : String) : String :=
  "\nmodule \"app_deployment\" \x7b\n  source = \"../../modules/aws_ecs_rds\"\n\n  project_name    = \"" ++ d.project_name ++
  "\"\n  project_id      = \"" ++ d.project_id ++
  "\"\n  environment     = \"" ++ d.environment ++
  "\"\n  region          = \"" ++ d.region ++
  "\"\n  \n  # Container settings\n  container_image = \"" ++ d.container_image ++
  "\"\n  container_port  = " ++ toString d.container_port ++
  "\n  container_cpu   = " ++ toString d.container_cpu ++
  "\n  container_memory = " ++ toString d.container_memory ++
  "\n  \n  # Autoscaling\n  desired_count   = " ++ toString d.desired_count ++
  "\n  min_capacity    = " ++ toString d.min_capacity ++
  "\n  max_capacity    = " ++ toString d.max_capacity ++
  "\n  \n  # Health check settings\n  health_check_path = \"" ++ d.health_check_path ++
  "\"\n  \n  # Database settings\n  has_database    = " ++ (if d.needs_database then "true" else "false") ++
  "\n  db_name        = \"" ++ d.db_name ++
  "\"\n  db_username    = \"" ++ d.db_username ++
  "\"\n  postgres_version = \"" ++ d.postgres_version ++
  "\"\n  db_instance_class = \"" ++ d.db_instance_class ++
  "\"\n  db_allocated_storage = " ++ toString d.db_allocated_storage ++
  "\n  db_type        = \"" ++ d.db_type ++
  "\"\n  \n  # Container environment variables\n  container_environment = " ++ jsonDumpEnvList d.container_environment ++
  "\n  \n  # Tags\n  tags = \x7b\n    Application = \"" ++ d.project_name ++
  "\"\n    Provisioned = \"AgentX\"\n    CreatedAt   = \"" ++ dateStr ++
  "\"\n  \x7d\n\x7d\n\noutput \"application_url\" \x7b\n  description = \"URL for accessing the application\"\n  value       = module.app_deployment.alb_url\n\x7d\n\noutput \"db_endpoint\" \x7b\n  description = \"Endpoint for the RDS PostgreSQL database\"\n  value       = module.app_deployment.db_instance_endpoint\n\x7d\n\noutput \"ecs_cluster\" \x7b\n  description = \"Name of the ECS cluster\"\n  value       = module.app_deployment.ecs_cluster_name\n\x7d\n\noutput \"deployment_instructions\" \x7b\n  description = \"Instructions for managing the deployed application\"\n  value       = module.app_deployment.deployment_instructions\n\x7d\n"

/-- main.OrchestratorAgent.handle_app_deployment (lines 1840-2137):
total — every raise inside the deployment try lands in the except
handler, which builds the error payload from str(e) and keeps the file
system as written so far. -/
def handle_app_deployment (env : ChatEnv) (fs : Fs) (cwd : String) (st : SessionState)
    (input : String) : Payload × SessionState × Fs :=
  if ¬ env.awsAvailable ∨ ¬ env.terraformAvailable then
    ({ response := "AWS CLI and/or Terraform are not available in your environment. Both are required for deploying apps with compute and database resources.",
       result := some "To deploy an application with compute and database requirements, I would:\n\n1. Create a Terraform configuration using the aws_ecs_rds module\n2. Deploy an ECS Fargate service for the application container\n3. Set up an RDS PostgreSQL database for data storage\n4. Configure networking, security, and load balancing\n5. Store database credentials securely in AWS Secrets Manager\n\nPlease install AWS CLI and Terraform to use this feature.",
       used_q_cli := false }, st, fs)
  else if ¬ env.dockerAvailable then
    ({ response := "Docker is not available in your environment. It\x27s required for building and pushing container images for Fargate deployment.",
       result := some "To deploy an application to AWS Fargate, I need to:\n\n1. Build a Docker image of your application\n2. Push the image to Amazon ECR\n3. Configure ECS Fargate to use this image\n\nPlease install Docker in your WSL environment and try again.",
       used_q_cli := false }, st, fs)
  else
    let d := Orchestrator.extract_app_details ⟨env.appNameCall⟩ fs cwd st input env.timestamp
    let d := if strIn "todo" (pyLower input) then { d with health_check_path := "/" } else d
    let d :=
      if optTruthy st.lastProjectFolder ∧ optTruthy st.lastProjectType ∧
          startsWith (st.lastProjectType.getD "") "app_" then
        let d := { d with content_dir := st.lastProjectFolder }
        let cp := Orchestrator.determine_container_port fs cwd (st.lastProjectFolder.getD "")
        if cp ≠ 0 then { d with container_port := cp } else d
      else d
    let d :=
      match appAtSearch input with
      | some p =>
        let p := pyStrip p
        if fs.exists' (resolvePath cwd p) then
          let d := { d with content_dir := some p }
          let cp := Orchestrator.determine_container_port fs cwd p
          let d := if cp ≠ 0 then { d with container_port := cp } else d
          if strIn "todo" (pyLower input) then { d with health_check_path := "/" } else d
        else d
      | none => d
    let contEnv := [("NODE_ENV", "production"), ("PORT", toString d.container_port),
      ("APP_NAME", d.project_name)] ++
      (if d.needs_database then
        [("DB_TYPE", d.db_type), ("DB_NAME", d.db_name), ("DB_DEMO_MODE", "false")]
       else [])
    let d := { d with container_environment := contEnv }
    let projectDir := resolvePath cwd
      ("./terraform_deployments/" ++ d.project_name ++ "-" ++ toString env.timestamp)
    let fs := fs.makedirs projectDir
    let body : Except (String × Fs) (Payload × SessionState × Fs) := do
      let d ←
        if d.content_dir.isSome ∧ fs.exists' (resolvePath cwd (d.content_dir.getD "")) then
          if env.dockerizeRes.success then
            pure { d with container_image := env.dockerizeRes.image_uri }
          else
            throw ("Failed to containerize application: " ++ env.dockerizeRes.message, fs)
        else pure d
      let fs := fs.write (projectDir ++ "/main.tf") (appDeployMainTf d env.dateStr)
      let fs := fs.write (projectDir ++ "/terraform.tfvars")
        ("\n# Project settings\nenvironment = \"" ++ d.environment ++ "\"\n")
      if env.appInitRes.returncode ≠ 0 then
        throw ("Terraform initialization failed: " ++ env.appInitRes.stderrS, fs)
      else if env.appApplyRes.returncode ≠ 0 then
        throw ("Terraform apply failed: " ++ env.appApplyRes.stderrS, fs)
      else if env.appOutputRes.returncode = 0 then
        match jsonLoads env.appOutputRes.stdoutS with
        | none => throw ("json.JSONDecodeError", fs)
        | some outputs =>
          match (do
            let a ← JVal.getAttrDefault outputs "application_url" (.jobj [])
            let au ← JVal.getAttrDefault a "value" (.jstr "N/A")
            let b ← JVal.getAttrDefault outputs "db_endpoint" (.jobj [])
            let dbe ← JVal.getAttrDefault b "value" (.jstr "N/A")
            let c ← JVal.getAttrDefault outputs "ecs_cluster" (.jobj [])
            let ec ← JVal.getAttrDefault c "value" (.jstr "N/A")
            let dd ← JVal.getAttrDefault outputs "deployment_instructions" (.jobj [])
            let di ← JVal.getAttrDefault dd "value" (.jstr "N/A")
            pure (au, dbe, ec, di) : Except PyErr (JVal × JVal × JVal × JVal)) with
          | .error e => throw (pyErrMsg e, fs)
          | .ok (au, dbe, ec, di) =>
            let info :=
              "Application \x27" ++ d.project_name ++ "\x27 successfully deployed to AWS!\n\n" ++
              "Application URL: " ++ Deploy.pyStr au ++
              "\n\nDatabase Endpoint: " ++ Deploy.pyStr dbe ++
              "\n\nECS Cluster: " ++ Deploy.pyStr ec ++
              "\n\nDeployment Instructions:\n" ++ Deploy.pyStr di
            pure ({ response := "Your application \x27" ++ d.project_name ++
                      "\x27 has been deployed to AWS! Access it at: " ++ Deploy.pyStr au,
                    result := some info, used_q_cli := false }, st, fs)
      else throw ("Failed to get Terraform outputs: " ++ env.appOutputRes.stderrS, fs)
    match body with
    | .ok r => r
    | .error (msg, fs) =>
      ({ response := "I encountered an error while deploying your application: " ++ msg,
         result := some ("Error deploying application: " ++ msg ++
           "\n\nPlease ensure you have the necessary AWS credentials configured and that the application code is properly structured for containerization."),
         used_q_cli := false }, st, fs)

/-- main.OrchestratorAgent.chat (lines 149-175): classify, then the
elif chain.  Each branch evaluates request_info["type"] (which raises
KeyError on a parsed object without the key and TypeError on a parsed
non-object) and, when the type matches, request_info["action"]; the
app-deploy branch additionally reads request_info.get("compute_db").
The app_type value is passed through its string rendering, which
preserves every comparison the handlers make on it. -/
def chat (env : ChatEnv) (fs : Fs) (cwd : String) (st : SessionState) (input : String) :
    Except PyErr (Payload × SessionState × Fs) := do
  let requestInfo := Orchestrator.analyze_request_with_llm env.classify1
  let ty ← JVal.getItem requestInfo "type"
  let c1 ← if ty.eqStr "website" then
      (JVal.getItem requestInfo "action").map (fun a => a.eqStr "build")
    else pure false
  if c1 then handle_website_build env fs cwd st input
  else do
    let c2 ← if ty.eqStr "static_website" then
        (JVal.getItem requestInfo "action").map (fun a => a.eqStr "deploy")
      else pure false
    if c2 then pure (handle_static_website_deploy env fs cwd st input)
    else do
      let c3 ← if ty.eqStr "app" then
          (JVal.getItem requestInfo "action").map (fun a => a.eqStr "build")
        else pure false
      if c3 then do
        let appTypeV ← JVal.getAttrDefault requestInfo "app_type" (.jstr "web")
        handle_app_build env fs cwd st input (Deploy.pyStr appTypeV)
      else do
        let c4 ← if ty.eqStr "app" then do
            let ac ← JVal.getItem requestInfo "action"
            if ac.eqStr "deploy" then do
              let cdb ← JVal.getAttrDefault requestInfo "compute_db" (.jbool false)
              pure cdb.pyTruthy
            else pure false
          else pure false
        if c4 then pure (handle_app_deployment env fs cwd st input)
        else do
          let c5 ← if ty.eqStr "q_cli" then
              (JVal.getItem requestInfo "action").map (fun a => a.eqStr "interact")
            else pure false
          if c5 then pure (handle_q_cli_interaction env fs st input)
          else pure (handle_conversation env fs st input)

end Chat

namespace Orchestrator

/-! ### The per-layer firing conditions, for the monotonicity theorem -/

/-- Layer a: explicit database keywords in the user text. -/
def layerKeywordFired (userInput : String) : Bool :=
  dbIndicators.any (fun k => strIn k (pyLower userInput))

/-- Layer b: app-type keywords in the user text. -/
def layerAppTypeFired (userInput : String) : Bool :=
  appTypeIndicators.any (fun k => strIn k (pyLower userInput))

/-- Demo-mode sentinel layer over .app_status. -/
def layerDemoFired (fs : Fs) (cwd folder : String) : Bool :=
  match fs.read? (resolvePath cwd (pathJoin folder ".app_status")) with
  | some c => appStatusDemoMode c
  | none => false

/-- Firing condition of one env file: it exists and carries a database
variable prefix. -/
def envFileCond (fs : Fs) (cwd folder name : String) : Bool :=
  match fs.read? (resolvePath cwd (pathJoin folder name)) with
  | some c => dbVarPrefixes.any (fun p => strIn p c)
  | none => false

/-- Env-file layer: some env file carries a database variable prefix. -/
def layerEnvFired (fs : Fs) (cwd folder : String) : Bool :=
  envFilesList.any (envFileCond fs cwd folder)

/-- Firing condition of one backend file: a client-library import or a
connection pattern. -/
def serverFileCond (fs : Fs) (cwd folder name : String) : Bool :=
  match fs.read? (resolvePath cwd (pathJoin folder name)) with
  | some c =>
    dbImportsList.any (fun lib => requireImportSearch lib c.data || fromImportSearch lib c.data) ||
    (connPattern1 c.data || connPattern2 c.data || connPattern3 c.data || connPattern4 c.data)
  | none => false

/-- Server-file layer: some backend file imports a client library or
contains a connection pattern. -/
def layerServerFired (fs : Fs) (cwd folder : String) : Bool :=
  serverFilesList.any (serverFileCond fs cwd folder)

/-- Package.json layer: a database dependency is declared. -/
def layerPkgFired (fs : Fs) (cwd folder : String) : Bool :=
  match fs.read? (resolvePath cwd (pathJoin folder "package.json")) with
  | none => false
  | some content =>
    match jsonLoads content with
    | none => false
    | some pkg =>
      match pkgDependencyNames pkg with
      | .error _ => false
      | .ok deps => dbDepsGroups.any (fun g => g.2.any (fun dep => deps.contains dep))

/-- Firing condition of one migrations directory. -/
def migrationsDirCond (fs : Fs) (cwd folder d : String) : Bool :=
  fs.exists' (resolvePath cwd (pathJoin folder d)) && fs.isDir (resolvePath cwd (pathJoin folder d))

/-- Migrations layer: a migrations or ORM directory exists. -/
def layerMigrationsFired (fs : Fs) (cwd folder : String) : Bool :=
  sqlDirsList.any (migrationsDirCond fs cwd folder)

/-- Firing condition of one walked directory: it holds a .sql file. -/
def sqlDirCond (entry : String × List String) : Bool :=
  entry.2.any (fun f => endsWith f ".sql")

/-- SQL-file layer: the walk finds a .sql file. -/
def layerSqlFired (fs : Fs) (cwd folder : String) : Bool :=
  (walkList fs (resolvePath cwd folder)).any sqlDirCond

/-- Demo-server sentinel layer: server_demo.js exists. -/
def layerDemoFileFired (fs : Fs) (cwd folder : String) : Bool :=
  fs.exists' (resolvePath cwd (pathJoin folder "server_demo.js"))

/-- The guard deciding whether the file-inspection layers run at all. -/
def hasAppProject (sess : SessionState) : Bool :=
  optTruthy sess.lastProjectFolder && optTruthy sess.lastProjectType &&
    startsWith (sess.lastProjectType.getD "") "app_"

/-! ### Flag-threading lemmas for the database-need layers -/

theorem envExtractLine_needs (st : AppDetails) (line : String) :
    (envExtractLine st line).needs_database = st.needs_database := by
  unfold envExtractLine
  repeat (first | rfl | split | dsimp only)

theorem envLines_needs (lines : List String) :
    ∀ st : AppDetails, (lines.foldl envExtractLine st).needs_database = st.needs_database := by
  induction lines with
  | nil => intro st; rfl
  | cons x xs ih => intro st; simp [List.foldl, ih, envExtractLine_needs]

theorem envFileStep_needs (fs : Fs) (cwd folder : String) (st : AppDetails) (name : String) :
    (envFileStep fs cwd folder st name).needs_database =
      (st.needs_database || envFileCond fs cwd folder name) := by
  unfold envFileStep envFileCond
  cases fs.read? (resolvePath cwd (pathJoin folder name)) with
  | none => simp
  | some c =>
    by_cases h : dbVarPrefixes.any (fun p => strIn p c)
    · simp [h, envLines_needs]
    · simp [h]

theorem foldl_needs_or {α : Type} (step : AppDetails → α → AppDetails) (c : α → Bool)
    (h : ∀ st a, (step st a).needs_database = (st.needs_database || c a)) (l : List α) :
    ∀ st : AppDetails, (l.foldl step st).needs_database = (st.needs_database || l.any c) := by
  induction l with
  | nil => intro st; simp
  | cons x xs ih => intro st; simp [List.foldl, ih, h, Bool.or_assoc]

theorem findNone_any {α : Type} (p : α → Bool) (l : List α) (h : l.find? p = none) :
    l.any p = false := by
  induction l with
  | nil => rfl
  | cons y ys ih =>
    rw [List.find?_cons] at h
    cases hy : p y
    · simp only [hy] at h
      simp [hy, ih h]
    · simp [hy] at h

theorem findSome_any {α : Type} (p : α → Bool) (l : List α) (x : α) (h : l.find? p = some x) :
    l.any p = true := by
  induction l with
  | nil => simp at h
  | cons y ys ih =>
    rw [List.find?_cons] at h
    cases hy : p y
    · simp only [hy] at h
      simp [hy, ih h]
    · simp [hy]

theorem serverFileStep_needs (fs : Fs) (cwd folder : String) (st : AppDetails) (name : String) :
    (serverFileStep fs cwd folder st name).needs_database =
      (st.needs_database || serverFileCond fs cwd folder name) := by
  unfold serverFileStep serverFileCond
  cases fs.read? (resolvePath cwd (pathJoin folder name)) with
  | none => simp
  | some c =>
    cases hf : dbImportsList.find?
        (fun lib => requireImportSearch lib c.data || fromImportSearch lib c.data) with
    | none =>
      have ha := findNone_any _ _ hf
      simp only [hf]
      split <;> simp_all
    | some lib =>
      have ha := findSome_any _ _ _ hf
      simp only [hf]
      split <;> (try split) <;> simp_all

theorem pkgGroupStep_needs (deps : List String) (st : AppDetails) (g : String × List String) :
    (pkgGroupStep deps st g).needs_database =
      (st.needs_database || g.2.any (fun dep => deps.contains dep)) := by
  unfold pkgGroupStep
  cases hf : g.2.find? (fun dep => deps.contains dep) with
  | none => have := findNone_any _ _ hf; simp_all
  | some d =>
    have ha := findSome_any _ _ _ hf
    simp only [hf]
    split <;> simp only [ha, Bool.or_true] <;> rfl

theorem pkgStep_needs (fs : Fs) (cwd folder : String) (st : AppDetails) :
    (pkgStep fs cwd folder st).needs_database =
      (st.needs_database || layerPkgFired fs cwd folder) := by
  unfold pkgStep layerPkgFired
  cases fs.read? (resolvePath cwd (pathJoin folder "package.json")) with
  | none => simp
  | some content =>
    cases hj : jsonLoads content with
    | none => simp [hj]
    | some pkg =>
      cases hd : pkgDependencyNames pkg with
      | error e => simp [hj, hd]
      | ok deps =>
        simp only [hj, hd]
        rw [foldl_needs_or (pkgGroupStep deps) (fun g => g.2.any (fun dep => deps.contains dep))
          (pkgGroupStep_needs deps)]

theorem migrationsDirStep_needs (fs : Fs) (cwd folder : String) (st : AppDetails) (d : String) :
    (migrationsDirStep fs cwd folder st d).needs_database =
      (st.needs_database || migrationsDirCond fs cwd folder d) := by
  unfold migrationsDirStep migrationsDirCond
  by_cases h : fs.exists' (resolvePath cwd (pathJoin folder d)) && fs.isDir (resolvePath cwd (pathJoin folder d))
  · simp only [h, if_true, Bool.or_true]
    repeat (first | rfl | split | dsimp only)
  · simp [h]

theorem sqlDirStep_needs (fs : Fs) (st : AppDetails) (entry : String × List String) :
    (sqlDirStep fs st entry).needs_database = (st.needs_database || sqlDirCond entry) := by
  unfold sqlDirStep sqlDirCond
  cases hf : entry.2.find? (fun f => endsWith f ".sql") with
  | none => have := findNone_any _ _ hf; simp_all
  | some f =>
    have ha := findSome_any _ _ _ hf
    simp only [hf]
    repeat' (first | rfl | split | dsimp only)
    all_goals (simp only [ha, Bool.or_true])

theorem demoStep_needs (fs : Fs) (cwd folder : String) (st : AppDetails) :
    (demoStep fs cwd folder st).needs_database =
      (st.needs_database || layerDemoFired fs cwd folder) := by
  unfold demoStep layerDemoFired
  cases fs.read? (resolvePath cwd (pathJoin folder ".app_status")) with
  | none => simp
  | some c => by_cases h : appStatusDemoMode c <;> simp [h]

end Orchestrator

open Orchestrator in
/-- C9: database-need detection in extract_app_details is monotonic —
the returned needs_database flag equals the disjunction of the firing
conditions of every evaluated heuristic layer (text keywords, app-type
keywords and, when a prior app project is tracked, the demo-mode
sentinel, env files, server files, dependency manifest, migrations
directories, SQL files and the server_demo.js sentinel), so once any
layer fires no later layer can reset the flag, and the record reports
true exactly when at least one layer fired. -/
theorem C9_needs_database_monotone (env : AppDetailsEnv) (fs : Fs) (cwd : String) (sess : SessionState)
    (userInput : String) (timestamp : Nat) :
    (extract_app_details env fs cwd sess userInput timestamp).needs_database =
      ((layerKeywordFired userInput || layerAppTypeFired userInput) ||
        (hasAppProject sess &&
          (layerDemoFired fs cwd (sess.lastProjectFolder.getD "") ||
           layerEnvFired fs cwd (sess.lastProjectFolder.getD "") ||
           layerServerFired fs cwd (sess.lastProjectFolder.getD "") ||
           layerPkgFired fs cwd (sess.lastProjectFolder.getD "") ||
           layerMigrationsFired fs cwd (sess.lastProjectFolder.getD "") ||
           layerSqlFired fs cwd (sess.lastProjectFolder.getD "") ||
           layerDemoFileFired fs cwd (sess.lastProjectFolder.getD "")))) := by
  have hport : ∀ (d : AppDetails),
      (portStep fs cwd (sess.lastProjectFolder.getD "") d).needs_database =
        d.needs_database := by
    intro d; unfold portStep; dsimp only; split <;> rfl
  have hsent : ∀ (d : AppDetails),
      (demoFileStep fs cwd (sess.lastProjectFolder.getD "") d).needs_database =
        (d.needs_database ||
          fs.exists' (resolvePath cwd (pathJoin (sess.lastProjectFolder.getD "") "server_demo.js"))) := by
    intro d; unfold demoFileStep
    by_cases hb : fs.exists' (resolvePath cwd (pathJoin (sess.lastProjectFolder.getD "") "server_demo.js")) = true
    · simp [hb]
    · simp [hb]
  have he := foldl_needs_or (envFileStep fs cwd (sess.lastProjectFolder.getD ""))
    (envFileCond fs cwd (sess.lastProjectFolder.getD ""))
    (envFileStep_needs fs cwd (sess.lastProjectFolder.getD "")) envFilesList
  have hsrv := foldl_needs_or (serverFileStep fs cwd (sess.lastProjectFolder.getD ""))
    (serverFileCond fs cwd (sess.lastProjectFolder.getD ""))
    (serverFileStep_needs fs cwd (sess.lastProjectFolder.getD "")) serverFilesList
  have hm := foldl_needs_or (migrationsDirStep fs cwd (sess.lastProjectFolder.getD ""))
    (migrationsDirCond fs cwd (sess.lastProjectFolder.getD ""))
    (migrationsDirStep_needs fs cwd (sess.lastProjectFolder.getD "")) sqlDirsList
  have hq := foldl_needs_or (sqlDirStep fs) sqlDirCond (sqlDirStep_needs fs)
    (walkList fs (resolvePath cwd (sess.lastProjectFolder.getD "")))
  unfold extract_app_details hasAppProject layerKeywordFired layerAppTypeFired
    layerDemoFileFired layerEnvFired layerServerFired layerMigrationsFired layerSqlFired
  by_cases hp : (optTruthy sess.lastProjectFolder && optTruthy sess.lastProjectType &&
      startsWith (sess.lastProjectType.getD "") "app_") = true
  · simp only [hp, if_true, Bool.true_and, hsent, hq, hm, pkgStep_needs, hsrv, he,
      demoStep_needs, hport, layerDemoFired, layerEnvFired, layerServerFired,
      layerMigrationsFired, layerSqlFired, Bool.or_assoc]
  · simp only [hp, if_false, Bool.false_and, Bool.or_false]
    simp at hp
    simp [hp]

/-! ### File-system lemmas used by the builder theorems -/

namespace Fs

theorem find_replace {p c : String} :
    ∀ (l : List (String × String)), l.any (fun e => e.1 = p) = true →
      (l.map (fun e => if e.1 = p then (p, c) else e)).find? (fun e => e.1 = p) = some (p, c) := by
  intro l
  induction l with
  | nil => intro h; simp at h
  | cons e tl ih =>
    intro h
    by_cases he : e.1 = p
    · simp [List.find?, he]
    · have h2 : tl.any (fun e => e.1 = p) = true := by
        simp [List.any_cons, he] at h
        simpa using h
      simp only [List.map]
      rw [if_neg he, List.find?_cons_of_neg _ (by simpa using he)]
      exact ih h2

theorem find_none {p : String} :
    ∀ (l : List (String × String)), l.any (fun e => e.1 = p) = false →
      l.find? (fun e => e.1 = p) = none := by
  intro l
  induction l with
  | nil => intro _; rfl
  | cons e tl ih =>
    intro h
    simp only [List.any] at h
    by_cases he : e.1 = p
    · simp [he] at h
    · rw [List.find?_cons_of_neg _ (by simpa using he)]
      exact ih (by simpa [he] using h)

theorem read?_write (fs : Fs) (p c : String) : (fs.write p c).read? p = some c := by
  unfold write read? isFile
  by_cases hf : fs.files.any (fun e => e.1 = p)
  · simp only [hf, if_true]
    simp [find_replace fs.files hf]
  · simp only [hf, Bool.false_eq_true, if_false]
    rw [List.find?_append, find_none fs.files (Bool.eq_false_iff.mpr hf)]
    simp [List.find?]

theorem isFile_write (fs : Fs) (p c : String) : (fs.write p c).isFile p = true := by
  have h := read?_write fs p c
  unfold read? at h
  unfold isFile
  cases hf : ((fs.write p c).files).find? (fun e => e.1 = p) with
  | none => rw [hf] at h; simp at h
  | some e =>
    have := AgentX.Orchestrator.findSome_any _ _ _ hf
    exact this

theorem isFile_of_read? {fs : Fs} {p c : String} (h : fs.read? p = some c) :
    fs.isFile p = true := by
  unfold read? at h
  unfold isFile
  cases hf : fs.files.find? (fun e => e.1 = p) with
  | none => rw [hf] at h; simp at h
  | some e => exact AgentX.Orchestrator.findSome_any _ _ _ hf

theorem exists'_write (fs : Fs) (p c : String) : (fs.write p c).exists' p = true := by
  unfold exists'
  simp [isFile_write]

theorem exists'_of_read? {fs : Fs} {p c : String} (h : fs.read? p = some c) :
    fs.exists' p = true := by
  unfold exists'
  simp [isFile_of_read? h]

end Fs

namespace QAgent

/-- A README is always present after the README recovery step. -/
theorem appReadmeStep_readme_present (env : BuildEnv) (w : WState) (absDir req aty : String) :
    ((appReadmeStep env w absDir req aty).2.1).exists' (absDir ++ "/README.md") = true := by
  unfold appReadmeStep
  cases hr : w.1.read? (absDir ++ "/README.md") with
  | some c =>
    simp only [hr]
    exact Fs.exists'_of_read? hr
  | none =>
    simp only [hr]
    exact Fs.exists'_write _ _ _

theorem cascade_html_files_ne_nil (w : WState) (absDir req : String) (hf0 : List String) :
    ((websiteCascade w absDir req hf0).1).isEmpty = false := by
  unfold websiteCascade
  by_cases h : hf0.isEmpty
  · simp only [h, if_true]
    cases recoverHtml w.1 absDir <;> simp
  · simp [h]

/-- A file system and oracle for the builder witnesses: the tool exits
nonzero, produces no files, and both builders start from an empty
/home. -/
def fsBuild : Fs := { files := [], dirs := ["/home"] }

def envBuild : BuildEnv :=
  { qAvailable := true
    directOutcome := .ok ⟨1, "I cannot write files"⟩
    directEffect := id
    scriptRun := ⟨1, ""⟩
    scriptEffect := id
    lsOutput := "total 0" }

/-- C3: when the tool run leaves no HTML file in the project directory
and the two-tier log recovery finds nothing extractable, build_website
writes exactly one synthesized index.html — the minimal fallback page —
to the project directory (its write log gains exactly that one entry
beyond the setup and tool-phase writes, never zero), reports
html_files = [index.html], and succeeds.  The recovery tiers are encoded
in recoverHtml, each attempted only when the previous found nothing. -/
theorem C3_fallback_writes_single_artifact (env : BuildEnv) (fs : Fs) (cwd req : String)
    (pd : Option String) (ts : Nat)
    (hq : env.qAvailable = true)
    (hd : websiteDirOk fs cwd pd ts = true)
    (hnohtml : ((websiteSetupAndTool env fs cwd req pd ts).2.1.1.listFiles
        (websiteSetupAndTool env fs cwd req pd ts).2.2).filter (fun f => endsWith f ".html") = [])
    (hrec : recoverHtml (websiteSetupAndTool env fs cwd req pd ts).2.1.1
        (websiteSetupAndTool env fs cwd req pd ts).2.2 = none) :
    (build_website env fs cwd req pd ts).success = true ∧
    (build_website env fs cwd req pd ts).html_files = ["index.html"] ∧
    (build_website env fs cwd req pd ts).writes =
      (websiteSetupAndTool env fs cwd req pd ts).2.1.2 ++
        [((websiteSetupAndTool env fs cwd req pd ts).2.2 ++ "/index.html",
          minimalHtml (displayTextOf req))] ∧
    (build_website env fs cwd req pd ts).fs.read?
        ((websiteSetupAndTool env fs cwd req pd ts).2.2 ++ "/index.html") =
      some (minimalHtml (displayTextOf req)) := by
  unfold websiteDirOk at hd
  unfold build_website
  simp [hq, hd]
  unfold websiteCascade
  simp [hnohtml, hrec, wwrite, Fs.read?_write]

/-- C3 witness: the theorem applied to the concrete no-output build. -/
theorem C3_fallback_writes_single_artifact_witness :
    (build_website envBuild fsBuild "/home" "a page that says Hello" none 42).success = true ∧
    (build_website envBuild fsBuild "/home" "a page that says Hello" none 42).html_files = ["index.html"] ∧
    (build_website envBuild fsBuild "/home" "a page that says Hello" none 42).writes =
      (websiteSetupAndTool envBuild fsBuild "/home" "a page that says Hello" none 42).2.1.2 ++
        [((websiteSetupAndTool envBuild fsBuild "/home" "a page that says Hello" none 42).2.2 ++ "/index.html",
          minimalHtml (displayTextOf "a page that says Hello"))] ∧
    (build_website envBuild fsBuild "/home" "a page that says Hello" none 42).fs.read?
        ((websiteSetupAndTool envBuild fsBuild "/home" "a page that says Hello" none 42).2.2 ++ "/index.html") =
      some (minimalHtml (displayTextOf "a page that says Hello")) :=
  C3_fallback_writes_single_artifact envBuild fsBuild "/home" "a page that says Hello" none 42 rfl rfl rfl rfl

/-- C10: whenever the external tool is available and the chosen project
directory is a real directory, build_website and build_app return
success = true regardless of the tool exit code, because the fallback
paths write index.html / README.md before the final check; a false
result can only arise from tool unavailability or from a raised
exception (external to this total model). -/
theorem C10_builders_always_succeed (envW envA : BuildEnv) (fsW fsA : Fs)
    (cwdW cwdA reqW reqA appType : String) (pdW pdA : Option String) (tsW tsA : Nat)
    (hqW : envW.qAvailable = true) (hqA : envA.qAvailable = true)
    (hdW : websiteDirOk fsW cwdW pdW tsW = true)
    (hdA : appDirOk fsA cwdA pdA tsA appType = true) :
    (build_website envW fsW cwdW reqW pdW tsW).success = true ∧
    (build_app envA fsA cwdA reqA appType pdA tsA).success = true := by
  unfold websiteDirOk at hdW
  unfold appDirOk at hdA
  constructor
  · unfold build_website
    simp [hqW, hdW]
    have h1 := cascade_html_files_ne_nil
      (websiteSetupAndTool envW fsW cwdW reqW pdW tsW).2.1
      (websiteSetupAndTool envW fsW cwdW reqW pdW tsW).2.2 reqW
      ((Fs.listFiles (websiteSetupAndTool envW fsW cwdW reqW pdW tsW).2.1.1
          (websiteSetupAndTool envW fsW cwdW reqW pdW tsW).2.2).filter
        (fun f => endsWith f ".html"))
    rw [List.isEmpty_eq_false] at h1
    simp [h1]
  · unfold build_app
    simp [hqA, hdA]
    have h2 := appReadmeStep_readme_present envA
      (appSetupAndTool envA fsA cwdA reqA appType pdA tsA).2.1
      (appSetupAndTool envA fsA cwdA reqA appType pdA tsA).2.2 reqA appType
    simp [h2]

/-- C10 witness: both builders succeed on the concrete failing tool. -/
theorem C10_builders_always_succeed_witness :
    (build_website envBuild fsBuild "/home" "site" none 7).success = true ∧
    (build_app envBuild fsBuild "/home" "tool" "cli" none 7).success = true :=
  C10_builders_always_succeed envBuild envBuild fsBuild fsBuild "/home" "/home" "site" "tool" "cli" none none 7 7
    rfl rfl rfl rfl

end QAgent


/-- C1 counterexample: the classifier response text is valid JSON of the
wrong schema; analyze_request_with_llm returns the parsed object
unchanged, not the default record, refuting the claim for the
wrong-schema case. -/
theorem C1_wrong_schema_counterexample :
    Orchestrator.analyze_request_with_llm (.ok "\x7b\"foo\": 1\x7d") =
      JVal.jobj [("foo", JVal.jnum 1)] ∧
    JVal.jobj [("foo", JVal.jnum 1)] ≠ Orchestrator.defaultClassification := by
  refine ⟨rfl, ?_⟩
  simp [Orchestrator.defaultClassification]

/-- C1 (amended): for every classifier response that does not parse as
JSON (including the empty response) and for every failed classification
call, analyze_request_with_llm returns exactly the default record
(type: conversation, action: chat); a response that parses as JSON is
returned as parsed, without schema validation.  The embedding is a
total function, so no exception reaches the caller. -/
theorem C1_classifier_default_on_failure (s t : String) (e : PyErr) (v : JVal)
    (hs : jsonLoads (pyStrip s) = none) (ht : jsonLoads (pyStrip t) = some v) :
    Orchestrator.analyze_request_with_llm (.ok s) = Orchestrator.defaultClassification ∧
    Orchestrator.analyze_request_with_llm (.error e) = Orchestrator.defaultClassification ∧
    Orchestrator.analyze_request_with_llm (.ok t) = v := by
  refine ⟨?_, rfl, ?_⟩
  · simp [Orchestrator.analyze_request_with_llm, hs]
  · simp [Orchestrator.analyze_request_with_llm, ht]

/-- C1 witness: the amended theorem applied at the empty response, a
failed call, and a wrong-schema JSON response. -/
theorem C1_classifier_default_on_failure_witness :
    Orchestrator.analyze_request_with_llm (.ok "") = Orchestrator.defaultClassification ∧
    Orchestrator.analyze_request_with_llm (.error (.exc "api down")) =
      Orchestrator.defaultClassification ∧
    Orchestrator.analyze_request_with_llm (.ok "\x7b\"answer\": 42\x7d") =
      JVal.jobj [("answer", JVal.jnum 42)] :=
  C1_classifier_default_on_failure "" "\x7b\"answer\": 42\x7d" (.exc "api down")
    (JVal.jobj [("answer", JVal.jnum 42)]) rfl rfl

/-- C8: the port-detection heuristics are applied in a fixed priority
order with the container-configuration tier first: whenever the
Dockerfile carries an EXPOSE directive naming port p, the detected port
is p, regardless of a differing .listen(q) pattern in server.js. -/
theorem C8_container_config_port_wins (fs : Fs) (cwd dir dockerContent serverContent : String)
    (p q : Nat)
    (hd : fs.read? (resolvePath cwd (pathJoin dir "Dockerfile")) = some dockerContent)
    (he : exposeSearch dockerContent.data = some p)
    (hs : fs.read? (resolvePath cwd (pathJoin dir "server.js")) = some serverContent)
    (hl : listenSearch serverContent.data = some q)
    (hpq : p ≠ q) :
    Orchestrator.determine_container_port fs cwd dir = (p : Int) := by
  have hdt : Orchestrator.dockerTier fs cwd dir = some p := by
    simp [Orchestrator.dockerTier, Orchestrator.dockerFilesList, Orchestrator.firstSome, hd, he]
  simp [Orchestrator.determine_container_port, hdt]

/-- A project directory carrying both a Dockerfile EXPOSE port (8080)
and a server.js listen port (3000). -/
def fsC8 : Fs :=
  { files := [("/proj/app/Dockerfile", "FROM node:16\nEXPOSE 8080\n"),
              ("/proj/app/server.js", "const app = express();\napp.listen(3000);\n")],
    dirs := ["/proj/app"] }

/-- C8 witness: on the concrete project above the container-config value
8080 wins over the source-code value 3000. -/
theorem C8_container_config_port_wins_witness :
    Fs.read? fsC8 (resolvePath "/proj" (pathJoin "app" "Dockerfile")) =
      some "FROM node:16\nEXPOSE 8080\n" ∧
    exposeSearch "FROM node:16\nEXPOSE 8080\n".data = some 8080 ∧
    listenSearch "const app = express();\napp.listen(3000);\n".data = some 3000 ∧
    Orchestrator.determine_container_port fsC8 "/proj" "app" = 8080 :=
  ⟨rfl, rfl, rfl,
    C8_container_config_port_wins fsC8 "/proj" "app" _ _ 8080 3000 rfl rfl rfl rfl (by decide)⟩

/-- C6: destroy_terraform_infrastructure restores the working directory
of the process on every exit path — missing directory, missing .tf
files, init failure or exception, destroy failure, timeout, or success
— so the current working directory after the call equals its value
before the call, for every environment, file system, starting directory
and argument. -/
theorem C6_destroy_restores_cwd (env : Cleanup.DestroyEnv) (fs : Fs) (cwd directory : String) :
    (Cleanup.destroy_terraform_infrastructure env fs cwd directory).cwd = cwd := by
  unfold Cleanup.destroy_terraform_infrastructure
  repeat (first | rfl | split | dsimp only)


/-! ## The chat dispatcher claims -/

namespace Chat

/-- dict.get on an object value never raises and yields the default when
the key is absent. -/
theorem getAttrDefault_obj (m : List (String × JVal)) (k : String) (d : JVal) :
    JVal.getAttrDefault (.jobj m) k d = .ok ((JVal.objGet m k).getD d) := by
  unfold JVal.getAttrDefault
  dsimp only
  cases h : JVal.objGet m k <;> simp [h]

/-- d[k] on an object value holding the key yields it. -/
theorem getItem_obj (m : List (String × JVal)) (k : String) (v : JVal)
    (h : JVal.objGet m k = some v) : JVal.getItem (.jobj m) k = .ok v := by
  unfold JVal.getItem
  dsimp only
  rw [h]

/-- handle_website_build returns normally whenever the second
classification parses to an object, and its value is the handler body
at the extracted is_iteration flag. -/
theorem handle_website_build_ok (env : ChatEnv) (fs : Fs) (cwd : String) (st : SessionState)
    (input : String) (m2 : List (String × JVal))
    (h2 : Orchestrator.analyze_request_with_llm env.classify2 = .jobj m2) :
    handle_website_build env fs cwd st input =
      .ok (websiteBuildCore env fs cwd st input
        (JVal.pyTruthy ((JVal.objGet m2 "is_iteration").getD (.jbool false)))) := by
  unfold handle_website_build
  rw [h2, getAttrDefault_obj]
  rfl

/-- handle_app_build returns normally whenever the second
classification parses to an object. -/
theorem handle_app_build_ok (env : ChatEnv) (fs : Fs) (cwd : String) (st : SessionState)
    (input appType : String) (m2 : List (String × JVal))
    (h2 : Orchestrator.analyze_request_with_llm env.classify2 = .jobj m2) :
    handle_app_build env fs cwd st input appType =
      .ok (appBuildCore env fs cwd st input appType
        (JVal.pyTruthy ((JVal.objGet m2 "is_iteration").getD (.jbool false)))) := by
  unfold handle_app_build
  rw [h2, getAttrDefault_obj]
  rfl

/-- Bind of a successful Except reduces to the continuation. -/
theorem exc_bind_ok {α β : Type} (a : α) (f : α → Except PyErr β) :
    (Except.ok a : Except PyErr α) >>= f = f a := rfl

/-- Map over a successful Except. -/
theorem exc_map_ok {α β : Type} (a : α) (f : α → β) :
    Except.map f (Except.ok a : Except PyErr α) = .ok (f a) := rfl

/-- pure in the Except monad is ok. -/
theorem exc_pure {α : Type} (a : α) : (pure a : Except PyErr α) = .ok a := rfl

/-- A build oracle with the q tool unavailable. -/
def buildEnvOffQ : QAgent.BuildEnv :=
  { qAvailable := false, directOutcome := .ok ⟨1, ""⟩, directEffect := id,
    scriptRun := ⟨1, ""⟩, scriptEffect := id, lsOutput := "" }

/-- A concrete baseline oracle for one chat turn: both classification
calls return "\x7b\x7d", no external tool is available, every LLM call
succeeds with a fixed text. -/
def chatEnvBase : ChatEnv :=
  { classify1 := .ok "\x7b\x7d", classify2 := .ok "\x7b\x7d",
    webSearchA := .ok "", claudeA := .ok "code", webSearchB := .ok "", claudeB := .ok "code",
    claudeConv := .ok "hello", nameCall := .ok "site", contentDirCall := .ok "null",
    appNameCall := .ok "app",
    buildEnv := buildEnvOffQ,
    serveRes := { success := true, url := "http://localhost:8000", message := "",
                  html_files := ["index.html"] },
    startRes := { success := false, url := none, message := "" },
    qChatOutcome := .ran 0 "ok" "",
    awsAvailable := false, terraformAvailable := false, dockerAvailable := false,
    dockerizeRes := { success := false, image_uri := "", message := "no docker" },
    deployEnv := { initRes := ⟨1, "", "no backend"⟩, applyRes := ⟨0, "", ""⟩, applyFx := id,
                   applyRetryRes := ⟨0, "", ""⟩, applyRetryFx := id, outputRes := ⟨1, "", ""⟩,
                   uploadResults := [] },
    appInitRes := ⟨1, "", ""⟩, appApplyRes := ⟨1, "", ""⟩, appOutputRes := ⟨1, "", ""⟩,
    timestamp := 111, timeStr := "t", dateStr := "2025-01-01" }

/-- The working area for the chat scenarios. -/
def fsChat : Fs := { files := [], dirs := ["/app"] }

/-- A session that currently tracks a website project. -/
def stC2 : SessionState := ⟨some "/projects/old-site", some "website"⟩

/-- The baseline oracle with a non-iteration second classification. -/
def envC2 : ChatEnv := { chatEnvBase with classify2 := .ok "\x7b\"is_iteration\": false\x7d" }

/-- The baseline oracle with a well-formed first classification. -/
def envC7w : ChatEnv :=
  { chatEnvBase with classify1 := .ok "\x7b\"type\": \"conversation\", \"action\": \"chat\"\x7d" }

set_option maxHeartbeats 1600000 in
/-- C7 (amended): chat returns a payload, never raising, whenever the
first classification parses to an object carrying the keys type and
action and the second classification parses to an object; every failure
inside the six handlers themselves is converted into a payload (the
handlers are total functions of their oracles).  Without those
conditions chat itself raises: there is no exception handler in chat or
in the main loop. -/
theorem C7_chat_total_for_object_classifications (env : ChatEnv) (fs : Fs) (cwd : String)
    (st : SessionState) (input : String)
    (h1 : ∃ m, Orchestrator.analyze_request_with_llm env.classify1 = .jobj m ∧
      (JVal.objGet m "type").isSome ∧ (JVal.objGet m "action").isSome)
    (h2 : ∃ m2, Orchestrator.analyze_request_with_llm env.classify2 = .jobj m2) :
    ∃ r, chat env fs cwd st input = .ok r := by
  obtain ⟨m, hm, hty0, hac0⟩ := h1
  obtain ⟨m2, hm2⟩ := h2
  obtain ⟨ty, hty⟩ := Option.isSome_iff_exists.mp hty0
  obtain ⟨ac, hac⟩ := Option.isSome_iff_exists.mp hac0
  have hwb := handle_website_build_ok env fs cwd st input m2 hm2
  have hab : ∀ aT : String, handle_app_build env fs cwd st input aT =
      .ok (appBuildCore env fs cwd st input aT
        (JVal.pyTruthy ((JVal.objGet m2 "is_iteration").getD (.jbool false)))) :=
    fun aT => handle_app_build_ok env fs cwd st input aT m2 hm2
  unfold chat
  rw [hm]
  dsimp only
  rw [getItem_obj m "type" ty hty, getItem_obj m "action" ac hac]
  simp only [getAttrDefault_obj, hwb, hab]
  cases hb1 : JVal.eqStr ty "website" <;>
    cases hb2 : JVal.eqStr ty "static_website" <;>
      cases hb3 : JVal.eqStr ty "app" <;>
        cases hb5 : JVal.eqStr ty "q_cli" <;>
          cases hc1 : JVal.eqStr ac "build" <;>
            cases hc2 : JVal.eqStr ac "deploy" <;>
              cases hc5 : JVal.eqStr ac "interact" <;>
                cases hcdb : JVal.pyTruthy ((JVal.objGet m "compute_db").getD (.jbool false)) <;>
                  simp [exc_bind_ok, exc_map_ok, exc_pure, hb1, hb2, hb3, hb5, hc1,
                    hc2, hc5, hcdb, hwb, hab]

/-- C7 counterexample: with the classifier replying the valid JSON
object text without a type key, chat raises KeyError out of the
dispatcher (and the main loop has no handler either): the turn does not
produce a payload. -/
theorem C7_chat_raises_counterexample :
    chat chatEnvBase fsChat "/app" ⟨none, none⟩ "hello" = .error (.keyError "type") := rfl

/-- C7 witness: a well-formed classification yields a payload. -/
theorem C7_chat_total_for_object_classifications_witness :
    ∃ r, chat envC7w fsChat "/app" ⟨none, none⟩ "hi" = .ok r :=
  C7_chat_total_for_object_classifications envC7w fsChat "/app" ⟨none, none⟩ "hi"
    ⟨[("type", JVal.jstr "conversation"), ("action", JVal.jstr "chat")], rfl, rfl, rfl⟩
    ⟨[], rfl⟩

/-- C2 (amended): for both build handlers the session state is updated
to the new project exactly on a successful build; on a failing or
tool-unavailable execution handle_app_build leaves the state exactly as
it was, but handle_website_build first clears the pointer for every
non-iteration request, so a failing non-iteration website build leaves
the state reset to (None, None) rather than untouched. -/
theorem C2_state_transitions (env : ChatEnv) (fs : Fs) (cwd : String) (st : SessionState)
    (input appType : String) (isIter : Bool) (m2 : List (String × JVal))
    (h2 : Orchestrator.analyze_request_with_llm env.classify2 = .jobj m2) :
    (handle_website_build env fs cwd st input =
      .ok (websiteBuildCore env fs cwd st input
        (JVal.pyTruthy ((JVal.objGet m2 "is_iteration").getD (.jbool false))))) ∧
    (handle_app_build env fs cwd st input appType =
      .ok (appBuildCore env fs cwd st input appType
        (JVal.pyTruthy ((JVal.objGet m2 "is_iteration").getD (.jbool false))))) ∧
    ((websiteBuildCore env fs cwd st input isIter).2.1 =
      if (env.buildEnv.qAvailable &&
          (QAgent.build_website env.buildEnv fs cwd input
            (if isIter ∧ optTruthy st.lastProjectFolder ∧ st.lastProjectType = some "website"
             then st.lastProjectFolder else none) env.timestamp).success) then
        ⟨some (QAgent.build_website env.buildEnv fs cwd input
            (if isIter ∧ optTruthy st.lastProjectFolder ∧ st.lastProjectType = some "website"
             then st.lastProjectFolder else none) env.timestamp).project_dir, some "website"⟩
      else if isIter then st else ⟨none, none⟩) ∧
    ((appBuildCore env fs cwd st input appType isIter).2.1 =
      if (env.buildEnv.qAvailable &&
          (QAgent.build_app env.buildEnv fs cwd input appType
            (if isIter ∧ optTruthy st.lastProjectFolder ∧ optTruthy st.lastProjectType ∧
                startsWith (st.lastProjectType.getD "") "app_"
             then st.lastProjectFolder else none) env.timestamp).success) then
        ⟨some (QAgent.build_app env.buildEnv fs cwd input appType
            (if isIter ∧ optTruthy st.lastProjectFolder ∧ optTruthy st.lastProjectType ∧
                startsWith (st.lastProjectType.getD "") "app_"
             then st.lastProjectFolder else none) env.timestamp).project_dir,
          some ("app_" ++ appType)⟩
      else st) := by
  refine ⟨handle_website_build_ok env fs cwd st input m2 h2,
          handle_app_build_ok env fs cwd st input appType m2 h2, ?_, ?_⟩
  · cases isIter with
    | false =>
      cases hq : env.buildEnv.qAvailable with
      | false =>
        cases hca : env.claudeA <;> simp [websiteBuildCore, hq, hca]
      | true =>
        simp only [websiteBuildCore, hq]
        cases hs : (QAgent.build_website env.buildEnv fs cwd input none env.timestamp).success <;>
          simp [hs]
    | true =>
      cases hq : env.buildEnv.qAvailable with
      | false =>
        cases hca : env.claudeA <;> simp [websiteBuildCore, hq, hca]
      | true =>
        simp only [websiteBuildCore, hq]
        cases hs : (QAgent.build_website env.buildEnv fs cwd input
            (if optTruthy st.lastProjectFolder ∧ st.lastProjectType = some "website"
             then st.lastProjectFolder else none) env.timestamp).success <;>
          simp [hs]
  · cases isIter with
    | false =>
      cases hq : env.buildEnv.qAvailable with
      | false =>
        cases hca : env.claudeA <;> simp [appBuildCore, hq, hca]
      | true =>
        simp only [appBuildCore, hq]
        cases hs : (QAgent.build_app env.buildEnv fs cwd input appType none env.timestamp).success
        · simp [hs]
        · simp [hs]
          try (split <;> rfl)
    | true =>
      cases hq : env.buildEnv.qAvailable with
      | false =>
        cases hca : env.claudeA <;> simp [appBuildCore, hq, hca]
      | true =>
        simp only [appBuildCore, hq]
        cases hs : (QAgent.build_app env.buildEnv fs cwd input appType
            (if optTruthy st.lastProjectFolder ∧ optTruthy st.lastProjectType ∧
                startsWith (st.lastProjectType.getD "") "app_"
             then st.lastProjectFolder else none) env.timestamp).success
        · simp [hs]
        · simp [hs]
          try (split <;> rfl)

/-- C2 counterexample: with the q tool unavailable (so no build occurs
and no successful build happens), a non-iteration website request resets
the stored pointer from (old-site, website) to (None, None) instead of
leaving it untouched; the payload confirms no Q CLI build ran. -/
theorem C2_reset_counterexample :
    (handle_website_build envC2 fsChat "/app" stC2 "build a brand new site").map
      (fun r => (r.2.1, r.1.used_q_cli)) =
      .ok ((⟨none, none⟩ : SessionState), false) ∧
    (⟨none, none⟩ : SessionState) ≠ stC2 :=
  ⟨rfl, by decide⟩

/-- C2 witness: at the concrete non-iteration oracle the website
handler ends with the cleared state while the app handler keeps the
previous state on its failing path. -/
theorem C2_state_transitions_witness :
    (websiteBuildCore envC2 fsChat "/app" stC2 "x" false).2.1 = (⟨none, none⟩ : SessionState) ∧
    (appBuildCore envC2 fsChat "/app" stC2 "x" "web" false).2.1 = stC2 := by
  have h := C2_state_transitions envC2 fsChat "/app" stC2 "x" "web" false
    [("is_iteration", JVal.jbool false)] rfl
  exact ⟨h.2.2.1, h.2.2.2⟩

end Chat

end AgentX
